import Mathlib

/-!
Verification development for the backend-amaris fund-management core
(the balance-transaction consistency engine of `funds/models.py`,
`funds/services.py`, `funds/serializers.py` and `funds/views.py`).

The Python source is shallowly embedded as follows.

* Python `Decimal` values (balances, amounts) are embedded as `ℚ`:
  `Decimal` addition/subtraction/comparison is exact rational arithmetic.
* The backing store (DynamoDB via PynamoDB) is embedded as an explicit
  `State` record holding the per-user data.  The application serves a single
  default user (`get_current_user` always returns `user_default`), and every
  record is keyed per user, so `State` carries one user's rows.
* The numeric attributes are persisted through Python `float(...)`
  (`UserBalance.update_balance`, `Transaction.create_transaction`,
  `UserFund.create_subscription`) and read back as `Decimal(str(x))`.
  The composite `Decimal(str(float(x)))` is the identity on every decimal
  value with at most 15 significant digits (Python `str` of a float is its
  shortest round-tripping decimal), which covers every amount handled by
  the workflows below; the state machine therefore stores the exact
  rational, and the raw `float` conversion itself is modelled separately
  (`doubleRepresentable`) where its rounding matters.
* Storage failures that the source observes (the boolean returned by
  `UserBalance.update_balance`, the `except` branch of
  `Transaction.get_user_transactions`) are an environment choice and are
  passed as explicit boolean parameters (`saveOk`, `queryOk`).
  `Transaction.update_status` also returns a boolean, but every call site
  in the source ignores it, so transaction saves are modelled as succeeding.
* `datetime.utcnow()` timestamps are embedded as a strictly increasing
  logical clock (`State.clock`); `uuid.uuid4()` transaction ids as a
  counter (`State.nextTxId`).
* Notification delivery (`NotificationService`) only logs and flips the
  `notification_sent` flag; it touches neither balances, nor amounts, nor
  statuses, nor the subscription registry, and is omitted.
-/

namespace BackendAmaris

/-- `Transaction.transaction_type`: the string field takes exactly the two
values written by the source. -/
inductive TxType where
  | SUBSCRIPTION
  | CANCELLATION
deriving DecidableEq, Repr

/-- `Transaction.status`: the string field takes exactly the three values
written by the source. -/
inductive TxStatus where
  | PENDING
  | COMPLETED
  | FAILED
deriving DecidableEq, Repr

/-- `Fund` model (`funds/models.py`). -/
structure Fund where
  id : String
  name : String
  minimum_amount : ℚ
  category : String
  is_active : Bool
deriving DecidableEq, Repr

/-- `Transaction` model (`funds/models.py`).  `id` embeds the uuid,
`created_at` the `datetime.utcnow()` timestamp (logical clock).
The `notification_sent` flag is omitted (see the file header). -/
structure Transaction where
  id : ℕ
  user_id : String
  fund_id : String
  transaction_type : TxType
  amount : ℚ
  status : TxStatus
  created_at : ℕ
deriving DecidableEq, Repr

/-- `UserFund` model (`funds/models.py`): the subscription-registry row for
a (user, fund) pair. -/
structure UserFund where
  user_id : String
  fund_id : String
  subscribed_at : ℕ
  cancelled_at : Option ℕ
  active : Bool
  subscription_amount : ℚ
  invested_amount : ℚ
deriving DecidableEq, Repr

/-- The persistent store, restricted to the single user the application
serves.  `transactions` is kept newest-first: `Transaction.save` prepends,
which makes `get_user_transactions` (descending `created_at` order,
`scan_index_forward=False`) a prefix-take.  `balance = none` means the
`UserBalance` row has not been lazily created yet. -/
structure State where
  user_id : String
  funds : List Fund
  balance : Option ℚ
  transactions : List Transaction
  userFunds : List UserFund
  clock : ℕ
  nextTxId : ℕ
deriving DecidableEq, Repr

/-- Ledger audit events, recording what the workflows do to transaction
rows: `create` is `Transaction.create_transaction` (with the status the
caller passes), `setStatus` is `Transaction.update_status` (with the row's
status before the write). -/
inductive LedgerEvent where
  | create (id : ℕ) (status : TxStatus)
  | setStatus (id : ℕ) (old new : TxStatus)
deriving DecidableEq, Repr

/-- `Fund.get(fund_id)`: key lookup in the fund table. -/
def fundGet (s : State) (fund_id : String) : Option Fund :=
  s.funds.find? (fun f => f.id == fund_id)

/-- `UserBalance.get_or_create_balance(user_id)`: return the stored balance,
creating the row with the default `Decimal('500000.00')` if absent. -/
def get_or_create_balance (s : State) : ℚ × State :=
  match s.balance with
  | some b => (b, s)
  | none => (500000, { s with balance := some 500000 })

/-- `UserBalance.update_balance(new_balance)`: overwrite the stored balance
and report success; on a storage failure (`saveOk = false`) the `except`
branch returns `False` and the store is unchanged. -/
def update_balance (s : State) (new_balance : ℚ) (saveOk : Bool) : Bool × State :=
  if saveOk then (true, { s with balance := some new_balance }) else (false, s)

/-- `Transaction.create_transaction(...)` immediately followed by
`transaction.save()`, as every call site does: allocate a fresh id and
timestamp, and persist the row (prepended: newest first). -/
def create_transaction (s : State) (fund_id : String) (ty : TxType) (amount : ℚ)
    (status : TxStatus) : Transaction × State :=
  let t : Transaction :=
    { id := s.nextTxId, user_id := s.user_id, fund_id := fund_id,
      transaction_type := ty, amount := amount, status := status,
      created_at := s.clock }
  (t, { s with transactions := t :: s.transactions,
               clock := s.clock + 1, nextTxId := s.nextTxId + 1 })

/-- `transaction.update_status(status)`: write the new status on the stored
row (save is an upsert by key).  The returned event records the row's
previous status for the audit trace. -/
def update_status (s : State) (txid : ℕ) (new : TxStatus) : State × LedgerEvent :=
  let old := match s.transactions.find? (fun t => t.id == txid) with
             | some t => t.status
             | none => TxStatus.PENDING
  ({ s with transactions :=
      s.transactions.map (fun t => if t.id == txid then { t with status := new } else t) },
   LedgerEvent.setStatus txid old new)

/-- `Transaction.get_user_transactions(user_id, limit)`: the newest `limit`
transactions; any storage exception (`queryOk = false`) is swallowed and
the empty list is returned. -/
def get_user_transactions (s : State) (limit : ℕ) (queryOk : Bool) : List Transaction :=
  if queryOk then s.transactions.take limit else []

/-- `UserFund.get_subscription(user_id, fund_id)`: key lookup in the
subscription registry. -/
def get_subscription (s : State) (fund_id : String) : Option UserFund :=
  s.userFunds.find? (fun uf => uf.fund_id == fund_id)

/-- Outcome of `UserFund.can_user_subscribe` (the message part of the
returned pair, one value per return site). -/
inductive SubscribeCheck where
  | noRecord
  | reactivation
  | alreadyActive
deriving DecidableEq, Repr

/-- `UserFund.can_user_subscribe(user_id, fund_id)`: no record or an
inactive record permits subscribing; an active record denies it. -/
def can_user_subscribe (s : State) (fund_id : String) : Bool × SubscribeCheck :=
  match get_subscription s fund_id with
  | none => (true, SubscribeCheck.noRecord)
  | some subscription =>
      if subscription.active then (false, SubscribeCheck.alreadyActive)
      else (true, SubscribeCheck.reactivation)

/-- The scan of `FundService.cancel_fund_subscription` (services.py,
step 2): the first (newest) transaction in `txs` that is a COMPLETED
SUBSCRIPTION to `fund_id` and has no strictly later COMPLETED CANCELLATION
for the same fund anywhere in `txs`. -/
def find_last_subscription (txs : List Transaction) (fund_id : String) : Option Transaction :=
  txs.find? (fun tr =>
    tr.fund_id == fund_id && tr.transaction_type == TxType.SUBSCRIPTION &&
    tr.status == TxStatus.COMPLETED &&
    !(txs.any (fun t =>
        t.fund_id == fund_id && t.transaction_type == TxType.CANCELLATION &&
        t.status == TxStatus.COMPLETED &&
        decide (tr.created_at < t.created_at))))

/-- The transaction row written by `create_transaction` on store `s`. -/
def txRecord (s : State) (fund_id : String) (ty : TxType) (amount : ℚ)
    (st : TxStatus) : Transaction :=
  { id := s.nextTxId, user_id := s.user_id, fund_id := fund_id,
    transaction_type := ty, amount := amount, status := st, created_at := s.clock }

/-- The rewrite `update_status` applies to the stored transaction list. -/
def stampStatus (n : ℕ) (st : TxStatus) (l : List Transaction) : List Transaction :=
  l.map (fun t => if t.id == n then { t with status := st } else t)

/-- The store after a successful subscribe debit: balance `b` debited by
`m`, a COMPLETED SUBSCRIPTION transaction prepended. -/
def subscribeSuccessState (s : State) (fund_id : String) (m b : ℚ) : State :=
  { s with balance := some (b - m),
           transactions :=
             txRecord s fund_id TxType.SUBSCRIPTION m TxStatus.COMPLETED ::
               stampStatus s.nextTxId TxStatus.COMPLETED s.transactions,
           clock := s.clock + 1, nextTxId := s.nextTxId + 1 }

/-- The store after a subscribe whose balance write failed: a FAILED
SUBSCRIPTION transaction prepended, everything else untouched. -/
def subscribeFailureState (s : State) (fund_id : String) (m : ℚ) : State :=
  { s with transactions :=
             txRecord s fund_id TxType.SUBSCRIPTION m TxStatus.FAILED ::
               stampStatus s.nextTxId TxStatus.FAILED s.transactions,
           clock := s.clock + 1, nextTxId := s.nextTxId + 1 }

/-- The store after a successful cancel credit: balance `b` credited with
`refund`, a COMPLETED CANCELLATION transaction prepended. -/
def cancelSuccessState (s : State) (fund_id : String) (refund b : ℚ) : State :=
  { s with balance := some (b + refund),
           transactions :=
             txRecord s fund_id TxType.CANCELLATION refund TxStatus.COMPLETED ::
               stampStatus s.nextTxId TxStatus.COMPLETED s.transactions,
           clock := s.clock + 1, nextTxId := s.nextTxId + 1 }

/-- The store after a cancel whose balance write failed: a FAILED
CANCELLATION transaction prepended, everything else untouched. -/
def cancelFailureState (s : State) (fund_id : String) (refund : ℚ) : State :=
  { s with transactions :=
             txRecord s fund_id TxType.CANCELLATION refund TxStatus.FAILED ::
               stampStatus s.nextTxId TxStatus.FAILED s.transactions,
           clock := s.clock + 1, nextTxId := s.nextTxId + 1 }

/-- The ledger audit events of a workflow whose transaction ended `st`:
created PENDING, then moved PENDING → `st`. -/
def writeTrace (s : State) (st : TxStatus) : List LedgerEvent :=
  [LedgerEvent.create s.nextTxId TxStatus.PENDING,
   LedgerEvent.setStatus s.nextTxId TxStatus.PENDING st]

/-- The store after a successful view subscribe that inserted a fresh
registry row. -/
def viewSubscribeNewState (s : State) (fund_id : String) (m b : ℚ) : State :=
  { subscribeSuccessState s fund_id m b with
    userFunds :=
      { user_id := s.user_id, fund_id := fund_id, subscribed_at := s.clock + 1,
        cancelled_at := none, active := true, subscription_amount := m,
        invested_amount := m } :: s.userFunds }

/-- The store after a successful view subscribe that reactivated an
inactive registry row. -/
def viewSubscribeReactState (s : State) (fund_id : String) (m b : ℚ) : State :=
  { subscribeSuccessState s fund_id m b with
    userFunds := s.userFunds.map (fun u =>
      if u.fund_id == fund_id then
        { u with active := true, cancelled_at := none, subscription_amount := m,
                 invested_amount := m, subscribed_at := s.clock + 1 }
      else u) }

/-- The store after a successful view cancel: the registry row
deactivated. -/
def viewCancelState (s : State) (fund_id : String) (refund b : ℚ) : State :=
  { cancelSuccessState s fund_id refund b with
    userFunds := s.userFunds.map (fun u =>
      if u.fund_id == fund_id then
        { u with active := false, cancelled_at := some (s.clock + 1) }
      else u) }

/-- The return sites of `FundService.subscribe_to_fund`, one constructor
per returned message. -/
inductive SubscribeResult where
  | fundNotExists
  | fundNotActive
  | insufficientBalance
  | subscribed (t : Transaction)
  | updateFailed
deriving DecidableEq, Repr

/-- `FundService.subscribe_to_fund(user_id, fund_id)` (services.py):
validate fund and balance, create a PENDING SUBSCRIPTION transaction for
exactly the fund's minimum, debit the balance, and mark the transaction
COMPLETED or FAILED.  Returns the result, the new store, and the ledger
audit events. -/
def subscribe_to_fund (s : State) (fund_id : String) (saveOk : Bool) :
    SubscribeResult × State × List LedgerEvent :=
  match fundGet s fund_id with
  | none => (SubscribeResult.fundNotExists, s, [])
  | some fund =>
    if fund.is_active = false then (SubscribeResult.fundNotActive, s, [])
    else
      let bs := get_or_create_balance s
      let current_balance := bs.1
      let minimum_amount := fund.minimum_amount
      if current_balance < minimum_amount then
        (SubscribeResult.insufficientBalance, bs.2, [])
      else
        let ts := create_transaction bs.2 fund_id TxType.SUBSCRIPTION minimum_amount
          TxStatus.PENDING
        let new_balance := current_balance - minimum_amount
        let ub := update_balance ts.2 new_balance saveOk
        if ub.1 then
          let se := update_status ub.2 ts.1.id TxStatus.COMPLETED
          (SubscribeResult.subscribed { ts.1 with status := TxStatus.COMPLETED }, se.1,
            [LedgerEvent.create ts.1.id TxStatus.PENDING, se.2])
        else
          let se := update_status ub.2 ts.1.id TxStatus.FAILED
          (SubscribeResult.updateFailed, se.1,
            [LedgerEvent.create ts.1.id TxStatus.PENDING, se.2])

/-- The return sites of `FundService.cancel_fund_subscription`, one
constructor per returned message. -/
inductive CancelResult where
  | fundNotExists
  | noActiveSubscription
  | cancelled (t : Transaction)
  | updateFailed
deriving DecidableEq, Repr

/-- `FundService.cancel_fund_subscription(user_id, fund_id)` (services.py):
validate the fund, locate the last uncancelled COMPLETED SUBSCRIPTION in
the newest 50 transactions, create a PENDING CANCELLATION transaction for
that subscription's amount, credit the balance, and mark the transaction
COMPLETED or FAILED. -/
def cancel_fund_subscription (s : State) (fund_id : String) (queryOk saveOk : Bool) :
    CancelResult × State × List LedgerEvent :=
  match fundGet s fund_id with
  | none => (CancelResult.fundNotExists, s, [])
  | some _fund =>
    let user_transactions := get_user_transactions s 50 queryOk
    match find_last_subscription user_transactions fund_id with
    | none => (CancelResult.noActiveSubscription, s, [])
    | some last_subscription =>
      let bs := get_or_create_balance s
      let current_balance := bs.1
      let refund_amount := last_subscription.amount
      let ts := create_transaction bs.2 fund_id TxType.CANCELLATION refund_amount
        TxStatus.PENDING
      let new_balance := current_balance + refund_amount
      let ub := update_balance ts.2 new_balance saveOk
      if ub.1 then
        let se := update_status ub.2 ts.1.id TxStatus.COMPLETED
        (CancelResult.cancelled { ts.1 with status := TxStatus.COMPLETED }, se.1,
          [LedgerEvent.create ts.1.id TxStatus.PENDING, se.2])
      else
        let se := update_status ub.2 ts.1.id TxStatus.FAILED
        (CancelResult.updateFailed, se.1,
          [LedgerEvent.create ts.1.id TxStatus.PENDING, se.2])

/-- `UserFund.create_subscription(user_id, fund_id, amount, invested_amount)`:
a fresh active registry row.  Both views pass `minimum_amount` for both
amounts. -/
def create_subscription (s : State) (fund_id : String) (amount invested_amount : ℚ) :
    UserFund :=
  { user_id := s.user_id, fund_id := fund_id, subscribed_at := s.clock,
    cancelled_at := none, active := true,
    subscription_amount := amount, invested_amount := invested_amount }

/-- The reactivation branch of `FundSubscribeView.post` (views.py step 8):
`user_fund.reactivate_subscription()` (set `active`, clear `cancelled_at`)
followed by refreshing `subscription_amount`, `invested_amount` and
`subscribed_at` and saving. -/
def reactivate_user_fund (s : State) (fund_id : String) (minimum_amount : ℚ) : State :=
  { s with userFunds := s.userFunds.map (fun uf =>
      if uf.fund_id == fund_id then
        { uf with active := true, cancelled_at := none,
                  subscription_amount := minimum_amount,
                  invested_amount := minimum_amount,
                  subscribed_at := s.clock }
      else uf) }

/-- `subscription.cancel_subscription()` (models.py): mark the registry row
inactive and stamp `cancelled_at`. -/
def cancel_user_fund (s : State) (fund_id : String) : State :=
  { s with userFunds := s.userFunds.map (fun uf =>
      if uf.fund_id == fund_id then
        { uf with active := false, cancelled_at := some s.clock }
      else uf) }

/-- The outcomes of `FundSubscribeView.post` (views.py), one constructor
per response site.  `fundInvalid` covers both a missing and an inactive
fund: in `FundSubscriptionSerializer.validate` the inactive-fund
`ValidationError` raised inside the `try` block is caught by its own
`except Exception` and re-raised as the does-not-exist error, so both
conditions surface as the same fund validation failure. -/
inductive ViewSubscribeResult where
  | fundInvalid
  | alreadySubscribed
  | insufficientBalance
  | created (t : Transaction) (new_balance : ℚ)
  | transactionFailed
deriving DecidableEq, Repr

/-- `FundSubscribeView.post` (views.py) together with the business
validations of `FundSubscriptionSerializer.validate` (serializers.py):
check fund, duplicate subscription and balance; then create a PENDING
SUBSCRIPTION transaction for the minimum amount, debit the balance and on
success mark it COMPLETED and upsert the registry row (reactivate an
inactive row or insert a fresh one), on failure mark it FAILED.  The
registry upsert sits in a `try/except` that logs and swallows registry
write errors; the registry write is modelled as succeeding. -/
def view_subscribe (s : State) (fund_id : String) (saveOk : Bool) :
    ViewSubscribeResult × State × List LedgerEvent :=
  match fundGet s fund_id with
  | none => (ViewSubscribeResult.fundInvalid, s, [])
  | some fund =>
    if fund.is_active = false then (ViewSubscribeResult.fundInvalid, s, [])
    else if (can_user_subscribe s fund_id).1 = false then
      (ViewSubscribeResult.alreadySubscribed, s, [])
    else
      let bs := get_or_create_balance s
      let current_balance := bs.1
      let minimum_amount := fund.minimum_amount
      if current_balance < minimum_amount then
        (ViewSubscribeResult.insufficientBalance, bs.2, [])
      else
        let ts := create_transaction bs.2 fund_id TxType.SUBSCRIPTION minimum_amount
          TxStatus.PENDING
        let new_balance := current_balance - minimum_amount
        let ub := update_balance ts.2 new_balance saveOk
        if ub.1 then
          let se := update_status ub.2 ts.1.id TxStatus.COMPLETED
          let s5 :=
            match get_subscription se.1 fund_id with
            | some user_fund =>
                if user_fund.active = false then
                  reactivate_user_fund se.1 fund_id minimum_amount
                else se.1
            | none =>
                { se.1 with userFunds :=
                    create_subscription se.1 fund_id minimum_amount minimum_amount ::
                      se.1.userFunds }
          (ViewSubscribeResult.created { ts.1 with status := TxStatus.COMPLETED } new_balance,
            s5, [LedgerEvent.create ts.1.id TxStatus.PENDING, se.2])
        else
          let se := update_status ub.2 ts.1.id TxStatus.FAILED
          (ViewSubscribeResult.transactionFailed, se.1,
            [LedgerEvent.create ts.1.id TxStatus.PENDING, se.2])

/-- The outcomes of `FundCancellationView.post` (views.py), one constructor
per response site.  `FundCancellationSerializer.validate` checks only that
the fund exists (no `is_active` check) and decides eligibility from the
registry row, refunding its `invested_amount`. -/
inductive ViewCancelResult where
  | fundInvalid
  | noSubscription
  | subscriptionInactive
  | cancelled (t : Transaction) (new_balance : ℚ)
  | cancellationFailed
deriving DecidableEq, Repr

/-- `FundCancellationView.post` (views.py) together with the business
validations of `FundCancellationSerializer.validate` (serializers.py):
check fund and an active registry row; refund that row's
`invested_amount`; create a PENDING CANCELLATION transaction, credit the
balance, and on success mark it COMPLETED and deactivate the registry row,
on failure mark it FAILED.  The registry deactivation sits in a
`try/except` that logs and swallows registry write errors; the registry
write is modelled as succeeding. -/
def view_cancel (s : State) (fund_id : String) (saveOk : Bool) :
    ViewCancelResult × State × List LedgerEvent :=
  match fundGet s fund_id with
  | none => (ViewCancelResult.fundInvalid, s, [])
  | some _fund =>
    match get_subscription s fund_id with
    | none => (ViewCancelResult.noSubscription, s, [])
    | some subscription =>
      if subscription.active = false then (ViewCancelResult.subscriptionInactive, s, [])
      else
        let bs := get_or_create_balance s
        let current_balance := bs.1
        let refund_amount := subscription.invested_amount
        let ts := create_transaction bs.2 fund_id TxType.CANCELLATION refund_amount
          TxStatus.PENDING
        let new_balance := current_balance + refund_amount
        let ub := update_balance ts.2 new_balance saveOk
        if ub.1 then
          let se := update_status ub.2 ts.1.id TxStatus.COMPLETED
          (ViewCancelResult.cancelled { ts.1 with status := TxStatus.COMPLETED } new_balance,
            cancel_user_fund se.1 fund_id,
            [LedgerEvent.create ts.1.id TxStatus.PENDING, se.2])
        else
          let se := update_status ub.2 ts.1.id TxStatus.FAILED
          (ViewCancelResult.cancellationFailed, se.1,
            [LedgerEvent.create ts.1.id TxStatus.PENDING, se.2])

/-- A rational is exactly representable as an IEEE-754 double-precision
float (normal range): an integer mantissa of at most 53 bits times a power
of two. -/
def doubleRepresentable (q : ℚ) : Prop :=
  ∃ m e : ℤ, m.natAbs < 2 ^ 53 ∧ q = (m : ℚ) * (2 : ℚ) ^ e

/-- An amount expressible in currency minor units: an integer count of
hundredths. -/
def minorUnitAmount (q : ℚ) : Prop := ∃ n : ℤ, q = (n : ℚ) / 100

/-- `UserBalance.update_balance` persists `float(new_balance)`
(models.py line 200), and `Transaction.create_transaction` persists
`float(amount)` (models.py line 266): the value stored for an exact
decimal `new_balance` is the nearest double, which equals `new_balance`
itself exactly when `new_balance` is double-representable. -/
def update_balance_stores_exactly (new_balance : ℚ) : Prop :=
  doubleRepresentable new_balance

/-- One invocation of either workflow through either entry point, with its
storage environment (`saveOk`: does the balance write succeed; `queryOk`:
does the history query succeed). -/
inductive Op where
  | serviceSubscribe (fund_id : String) (saveOk : Bool)
  | serviceCancel (fund_id : String) (queryOk saveOk : Bool)
  | viewSubscribe (fund_id : String) (saveOk : Bool)
  | viewCancel (fund_id : String) (saveOk : Bool)
deriving DecidableEq, Repr

/-- Execute one workflow invocation: the new store and the ledger audit
events (the result value is dropped). -/
def runOp (op : Op) (s : State) : State × List LedgerEvent :=
  match op with
  | Op.serviceSubscribe fund_id saveOk => (subscribe_to_fund s fund_id saveOk).2
  | Op.serviceCancel fund_id queryOk saveOk =>
      (cancel_fund_subscription s fund_id queryOk saveOk).2
  | Op.viewSubscribe fund_id saveOk => (view_subscribe s fund_id saveOk).2
  | Op.viewCancel fund_id saveOk => (view_cancel s fund_id saveOk).2

/-- Execute a finite sequence of workflow invocations, oldest first. -/
def runOps (ops : List Op) (s : State) : State :=
  ops.foldl (fun st op => (runOp op st).1) s

/-- The data-model invariants of §3 of the design that the workflows are
meant to preserve: the balance row (if created) is non-negative, and every
stored monetary amount (fund minimum, transaction amount, registry
amounts) is non-negative. -/
def goodState (s : State) : Prop :=
  (∀ q ∈ s.balance, 0 ≤ q) ∧
  (∀ f ∈ s.funds, 0 ≤ f.minimum_amount) ∧
  (∀ t ∈ s.transactions, 0 ≤ t.amount) ∧
  (∀ uf ∈ s.userFunds, 0 ≤ uf.invested_amount)

/-- Transaction ids already stored are strictly below the id counter —
true of every store reachable from an empty ledger, and what makes the
uuid-freshness of `create_transaction` faithful. -/
def TxIdsFresh (s : State) : Prop :=
  ∀ t ∈ s.transactions, t.id < s.nextTxId

/-- The per-event statement of the transaction state machine: rows are
created PENDING, and the only status writes are PENDING → COMPLETED and
PENDING → FAILED. -/
def eventOk (e : LedgerEvent) : Prop :=
  match e with
  | LedgerEvent.create _ st => st = TxStatus.PENDING
  | LedgerEvent.setStatus _ old new =>
      old = TxStatus.PENDING ∧
        (new = TxStatus.COMPLETED ∨ new = TxStatus.FAILED)

/-- A fund shaped like the seeded `FPV_EL CLIENTE_ECOPETROL`
(`initialize_default_funds`): minimum 125000, active. -/
def fundA : Fund :=
  { id := "fund_a", name := "FPV_EL CLIENTE_ECOPETROL", minimum_amount := 125000,
    category := "FPV", is_active := true }

/-- Fresh store for the default user: the seeded fund, the default balance
500000 already created, no history. -/
def state0 : State :=
  { user_id := "user_default", funds := [fundA], balance := some 500000,
    transactions := [], userFunds := [], clock := 0, nextTxId := 0 }

/-- Same store but with balance 124999: one peso short of `fundA`'s
minimum. -/
def stateLow : State :=
  { user_id := "user_default", funds := [fundA], balance := some 124999,
    transactions := [], userFunds := [], clock := 0, nextTxId := 0 }

/-- A fund with the spec's decimal-exactness minimum 125000.50. -/
def fundDec : Fund :=
  { id := "fund_dec", name := "FPV_DECIMAL", minimum_amount := 125000.50,
    category := "FIC", is_active := true }

/-- Store for the decimal-exactness scenario: balance 500000.75. -/
def stateDec : State :=
  { user_id := "user_default", funds := [fundDec], balance := some 500000.75,
    transactions := [], userFunds := [], clock := 0, nextTxId := 0 }

/-- A COMPLETED SUBSCRIPTION transaction to `fundA`, as left behind by a
successful subscribe at clock 0. -/
def subTx0 : Transaction :=
  { id := 0, user_id := "user_default", fund_id := "fund_a",
    transaction_type := TxType.SUBSCRIPTION, amount := 125000,
    status := TxStatus.COMPLETED, created_at := 0 }

/-- The active registry row matching `subTx0`. -/
def ufRow0 : UserFund :=
  { user_id := "user_default", fund_id := "fund_a", subscribed_at := 0,
    cancelled_at := none, active := true, subscription_amount := 125000,
    invested_amount := 125000 }

/-- A COMPLETED CANCELLATION transaction for `fundA`, strictly later than
`subTx0`. -/
def cancelTx1 : Transaction :=
  { id := 1, user_id := "user_default", fund_id := "fund_a",
    transaction_type := TxType.CANCELLATION, amount := 125000,
    status := TxStatus.COMPLETED, created_at := 1 }

/-- The store after one successful subscribe to `fundA` from the fresh
store. -/
def stateSub : State :=
  { user_id := "user_default", funds := [fundA], balance := some 375000,
    transactions := [subTx0], userFunds := [ufRow0], clock := 1, nextTxId := 1 }

section Lemmas

variable {s : State} {fund_id : String} {f : Fund} {b : ℚ}

/-- Evaluation of `FundService.subscribe_to_fund` on the success path:
fund found and active, balance present and sufficient, balance write
succeeds. -/
theorem subscribe_to_fund_success (hf : fundGet s fund_id = some f)
    (hact : f.is_active = true) (hb : s.balance = some b)
    (hle : f.minimum_amount ≤ b) :
    subscribe_to_fund s fund_id true =
      (SubscribeResult.subscribed
         (txRecord s fund_id TxType.SUBSCRIPTION f.minimum_amount TxStatus.COMPLETED),
       subscribeSuccessState s fund_id f.minimum_amount b,
       writeTrace s TxStatus.COMPLETED) := by
  have hnlt : ¬ (b < f.minimum_amount) := not_lt.mpr hle
  simp only [subscribe_to_fund, hf, hact, get_or_create_balance, hb,
    create_transaction, update_balance, update_status, List.find?, List.map_cons,
    txRecord, stampStatus, subscribeSuccessState, writeTrace,
    beq_self_eq_true, hnlt, if_false, if_true, Bool.true_eq_false, ite_false, ite_true]

/-- Evaluation of `FundService.subscribe_to_fund` when the balance is
below the fund's minimum: the insufficient-balance return site, with the
store untouched. -/
theorem subscribe_to_fund_insufficient {saveOk : Bool}
    (hf : fundGet s fund_id = some f)
    (hact : f.is_active = true) (hb : s.balance = some b)
    (hlt : b < f.minimum_amount) :
    subscribe_to_fund s fund_id saveOk = (SubscribeResult.insufficientBalance, s, []) := by
  simp only [subscribe_to_fund, hf, hact, get_or_create_balance, hb,
    Bool.true_eq_false, if_false, ite_false, hlt, ite_true, if_true]

/-- Evaluation of `FundService.subscribe_to_fund` when validation passes
but the balance write fails: the transaction is left FAILED and the
balance and registry are untouched. -/
theorem subscribe_to_fund_failure (hf : fundGet s fund_id = some f)
    (hact : f.is_active = true) (hb : s.balance = some b)
    (hle : f.minimum_amount ≤ b) :
    subscribe_to_fund s fund_id false =
      (SubscribeResult.updateFailed,
       subscribeFailureState s fund_id f.minimum_amount,
       writeTrace s TxStatus.FAILED) := by
  have hnlt : ¬ (b < f.minimum_amount) := not_lt.mpr hle
  simp only [subscribe_to_fund, hf, hact, get_or_create_balance, hb,
    create_transaction, update_balance, update_status, List.find?, List.map_cons,
    txRecord, stampStatus, subscribeFailureState, writeTrace,
    beq_self_eq_true, hnlt, if_false, if_true, Bool.true_eq_false, Bool.false_eq_true,
    ite_false, ite_true]

/-- Evaluation of `FundSubscribeView.post` on the success path when the
registry has no row for the fund: a fresh active row is inserted. -/
theorem view_subscribe_success_new (hf : fundGet s fund_id = some f)
    (hact : f.is_active = true) (hreg : get_subscription s fund_id = none)
    (hb : s.balance = some b) (hle : f.minimum_amount ≤ b) :
    view_subscribe s fund_id true =
      (ViewSubscribeResult.created
         (txRecord s fund_id TxType.SUBSCRIPTION f.minimum_amount TxStatus.COMPLETED)
         (b - f.minimum_amount),
       viewSubscribeNewState s fund_id f.minimum_amount b,
       writeTrace s TxStatus.COMPLETED) := by
  have hnlt : ¬ (b < f.minimum_amount) := not_lt.mpr hle
  simp only [view_subscribe, hf, hact, can_user_subscribe, hreg, get_or_create_balance,
    hb, create_transaction, update_balance, update_status, get_subscription,
    create_subscription, List.find?, List.map_cons, beq_self_eq_true, hnlt,
    txRecord, stampStatus, subscribeSuccessState, viewSubscribeNewState, writeTrace,
    if_false, if_true, Bool.true_eq_false, Bool.false_eq_true, ite_false, ite_true]
  simp only [get_subscription] at hreg
  simp [hreg]

/-- Evaluation of `FundSubscribeView.post` on the success path when the
registry has an inactive row for the fund: the row is reactivated and its
amounts refreshed. -/
theorem view_subscribe_success_reactivate {uf : UserFund}
    (hf : fundGet s fund_id = some f) (hact : f.is_active = true)
    (hreg : get_subscription s fund_id = some uf) (hinact : uf.active = false)
    (hb : s.balance = some b) (hle : f.minimum_amount ≤ b) :
    view_subscribe s fund_id true =
      (ViewSubscribeResult.created
         (txRecord s fund_id TxType.SUBSCRIPTION f.minimum_amount TxStatus.COMPLETED)
         (b - f.minimum_amount),
       viewSubscribeReactState s fund_id f.minimum_amount b,
       writeTrace s TxStatus.COMPLETED) := by
  have hnlt : ¬ (b < f.minimum_amount) := not_lt.mpr hle
  simp only [view_subscribe, hf, hact, can_user_subscribe, hreg, hinact,
    get_or_create_balance, hb, create_transaction, update_balance, update_status,
    get_subscription, reactivate_user_fund, List.find?, List.map_cons,
    txRecord, stampStatus, subscribeSuccessState, viewSubscribeReactState, writeTrace,
    beq_self_eq_true, hnlt, if_false, if_true, Bool.true_eq_false, Bool.false_eq_true,
    ite_false, ite_true]
  simp only [get_subscription] at hreg
  simp [hreg, hinact]

/-- Evaluation of `FundSubscribeView.post` when the registry already has an
active row: the already-subscribed validation failure, store untouched. -/
theorem view_subscribe_already {saveOk : Bool} {uf : UserFund}
    (hf : fundGet s fund_id = some f) (hact : f.is_active = true)
    (hreg : get_subscription s fund_id = some uf) (hactive : uf.active = true) :
    view_subscribe s fund_id saveOk = (ViewSubscribeResult.alreadySubscribed, s, []) := by
  simp only [view_subscribe, hf, hact, can_user_subscribe, hreg, hactive,
    Bool.true_eq_false, if_false, ite_false, ite_true, if_true]

/-- Evaluation of `FundSubscribeView.post` when the balance is below the
minimum (and the duplicate-subscription check passes): the
insufficient-balance validation failure, store untouched. -/
theorem view_subscribe_insufficient {saveOk : Bool}
    (hf : fundGet s fund_id = some f) (hact : f.is_active = true)
    (hallow : (can_user_subscribe s fund_id).1 = true)
    (hb : s.balance = some b) (hlt : b < f.minimum_amount) :
    view_subscribe s fund_id saveOk = (ViewSubscribeResult.insufficientBalance, s, []) := by
  simp only [view_subscribe, hf, hact, hallow, get_or_create_balance, hb,
    Bool.true_eq_false, if_false, ite_false, hlt, ite_true, if_true]

/-- Evaluation of `FundSubscribeView.post` when validation passes but the
balance write fails: the transaction is left FAILED; balance and registry
are untouched. -/
theorem view_subscribe_failure
    (hf : fundGet s fund_id = some f) (hact : f.is_active = true)
    (hallow : (can_user_subscribe s fund_id).1 = true)
    (hb : s.balance = some b) (hle : f.minimum_amount ≤ b) :
    view_subscribe s fund_id false =
      (ViewSubscribeResult.transactionFailed,
       subscribeFailureState s fund_id f.minimum_amount,
       writeTrace s TxStatus.FAILED) := by
  have hnlt : ¬ (b < f.minimum_amount) := not_lt.mpr hle
  simp only [view_subscribe, hf, hact, hallow, get_or_create_balance, hb,
    create_transaction, update_balance, update_status, List.find?, List.map_cons,
    txRecord, stampStatus, subscribeFailureState, writeTrace,
    beq_self_eq_true, hnlt, if_false, if_true, Bool.true_eq_false, Bool.false_eq_true,
    ite_false, ite_true]

/-- Evaluation of `FundService.cancel_fund_subscription` when the ledger
scan finds no eligible subscription: the no-active-subscription return
site, store untouched. -/
theorem cancel_fund_subscription_none {queryOk saveOk : Bool}
    (hf : fundGet s fund_id = some f)
    (hfind : find_last_subscription (get_user_transactions s 50 queryOk) fund_id = none) :
    cancel_fund_subscription s fund_id queryOk saveOk =
      (CancelResult.noActiveSubscription, s, []) := by
  simp only [cancel_fund_subscription, hf, hfind]

/-- Evaluation of `FundService.cancel_fund_subscription` on the success
path: the scan over the newest 50 transactions finds `sub`, and exactly
`sub.amount` is refunded. -/
theorem cancel_fund_subscription_success {sub : Transaction}
    (hf : fundGet s fund_id = some f)
    (hfind : find_last_subscription (s.transactions.take 50) fund_id = some sub)
    (hb : s.balance = some b) :
    cancel_fund_subscription s fund_id true true =
      (CancelResult.cancelled
         (txRecord s fund_id TxType.CANCELLATION sub.amount TxStatus.COMPLETED),
       cancelSuccessState s fund_id sub.amount b,
       writeTrace s TxStatus.COMPLETED) := by
  simp only [cancel_fund_subscription, hf, get_user_transactions, if_true, ite_true,
    hfind, get_or_create_balance, hb, create_transaction, update_balance,
    update_status, List.find?, List.map_cons, beq_self_eq_true, if_false,
    txRecord, stampStatus, cancelSuccessState, writeTrace,
    Bool.true_eq_false, ite_false]

/-- Evaluation of `FundService.cancel_fund_subscription` when the scan
finds `sub` but the balance write fails: the CANCELLATION transaction is
left FAILED and the balance is untouched. -/
theorem cancel_fund_subscription_failure {sub : Transaction}
    (hf : fundGet s fund_id = some f)
    (hfind : find_last_subscription (s.transactions.take 50) fund_id = some sub)
    (hb : s.balance = some b) :
    cancel_fund_subscription s fund_id true false =
      (CancelResult.updateFailed,
       cancelFailureState s fund_id sub.amount,
       writeTrace s TxStatus.FAILED) := by
  simp only [cancel_fund_subscription, hf, get_user_transactions, if_true, ite_true,
    hfind, get_or_create_balance, hb, create_transaction, update_balance,
    update_status, List.find?, List.map_cons, beq_self_eq_true, if_false,
    txRecord, stampStatus, cancelFailureState, writeTrace,
    Bool.true_eq_false, Bool.false_eq_true, ite_false]

/-- Evaluation of `FundCancellationView.post` when the registry has no row
for the fund: the validation failure, store untouched. -/
theorem view_cancel_no_row {saveOk : Bool} (hf : fundGet s fund_id = some f)
    (hreg : get_subscription s fund_id = none) :
    view_cancel s fund_id saveOk = (ViewCancelResult.noSubscription, s, []) := by
  simp only [view_cancel, hf, hreg]

/-- Evaluation of `FundCancellationView.post` when the registry row is
inactive: the already-cancelled validation failure, store untouched. -/
theorem view_cancel_inactive {saveOk : Bool} {uf : UserFund}
    (hf : fundGet s fund_id = some f)
    (hreg : get_subscription s fund_id = some uf) (hinact : uf.active = false) :
    view_cancel s fund_id saveOk = (ViewCancelResult.subscriptionInactive, s, []) := by
  simp only [view_cancel, hf, hreg, hinact, if_true, ite_true]

/-- Evaluation of `FundCancellationView.post` on the success path: the
registry row's `invested_amount` is refunded and the row deactivated. -/
theorem view_cancel_success {uf : UserFund}
    (hf : fundGet s fund_id = some f)
    (hreg : get_subscription s fund_id = some uf) (hactive : uf.active = true)
    (hb : s.balance = some b) :
    view_cancel s fund_id true =
      (ViewCancelResult.cancelled
         (txRecord s fund_id TxType.CANCELLATION uf.invested_amount TxStatus.COMPLETED)
         (b + uf.invested_amount),
       viewCancelState s fund_id uf.invested_amount b,
       writeTrace s TxStatus.COMPLETED) := by
  simp only [view_cancel, hf, hreg, hactive, get_or_create_balance, hb,
    create_transaction, update_balance, update_status, cancel_user_fund,
    List.find?, List.map_cons, beq_self_eq_true, if_false, if_true,
    txRecord, stampStatus, cancelSuccessState, viewCancelState, writeTrace,
    Bool.true_eq_false, ite_false, ite_true]

/-- Evaluation of `FundCancellationView.post` when the registry row is
active but the balance write fails: the CANCELLATION transaction is left
FAILED; balance and registry are untouched. -/
theorem view_cancel_failure {uf : UserFund}
    (hf : fundGet s fund_id = some f)
    (hreg : get_subscription s fund_id = some uf) (hactive : uf.active = true)
    (hb : s.balance = some b) :
    view_cancel s fund_id false =
      (ViewCancelResult.cancellationFailed,
       cancelFailureState s fund_id uf.invested_amount,
       writeTrace s TxStatus.FAILED) := by
  simp only [view_cancel, hf, hreg, hactive, get_or_create_balance, hb,
    create_transaction, update_balance, update_status, List.find?, List.map_cons,
    txRecord, stampStatus, cancelFailureState, writeTrace,
    beq_self_eq_true, if_false, if_true, Bool.true_eq_false, Bool.false_eq_true,
    ite_false, ite_true]

/-- If `can_user_subscribe` allows, the registry has either no row for the
fund or an inactive one. -/
theorem can_user_subscribe_true_cases
    (h : (can_user_subscribe s fund_id).1 = true) :
    get_subscription s fund_id = none ∨
      ∃ uf, get_subscription s fund_id = some uf ∧ uf.active = false := by
  rcases hreg : get_subscription s fund_id with _ | uf
  · exact Or.inl rfl
  · refine Or.inr ⟨uf, rfl, ?_⟩
    cases hA : uf.active
    · rfl
    · simp [can_user_subscribe, hreg, hA] at h

/-- After a successful `FundSubscribeView.post`, the registry holds an
active row for the fund whose amounts are the minimum just charged. -/
theorem view_subscribe_registry (hf : fundGet s fund_id = some f)
    (hact : f.is_active = true) (hallow : (can_user_subscribe s fund_id).1 = true)
    (hb : s.balance = some b) (hle : f.minimum_amount ≤ b) :
    ∃ uf2, get_subscription (view_subscribe s fund_id true).2.1 fund_id = some uf2 ∧
      uf2.active = true ∧ uf2.invested_amount = f.minimum_amount ∧
      uf2.subscription_amount = f.minimum_amount := by
  rcases can_user_subscribe_true_cases hallow with hreg | ⟨uf, hreg, hinact⟩
  · rw [view_subscribe_success_new hf hact hreg hb hle]
    refine ⟨{ user_id := s.user_id, fund_id := fund_id, subscribed_at := s.clock + 1,
              cancelled_at := none, active := true,
              subscription_amount := f.minimum_amount,
              invested_amount := f.minimum_amount }, ?_, rfl, rfl, rfl⟩
    simp [get_subscription, viewSubscribeNewState, subscribeSuccessState]
  · rw [view_subscribe_success_reactivate hf hact hreg hinact hb hle]
    simp only [get_subscription, viewSubscribeReactState, subscribeSuccessState] at hreg ⊢
    have hp : (uf.fund_id == fund_id) = true := by
      have h2 := List.find?_some hreg
      simpa using h2
    rw [List.find?_map]
    have hcomp : ((fun uf => uf.fund_id == fund_id) ∘ (fun u : UserFund =>
        if u.fund_id == fund_id then
          { u with active := true, cancelled_at := none,
                   subscription_amount := f.minimum_amount,
                   invested_amount := f.minimum_amount,
                   subscribed_at := s.clock + 1 }
        else u)) = fun uf => uf.fund_id == fund_id := by
      funext u
      by_cases hu : (u.fund_id == fund_id) = true
      · have hueq : u.fund_id = fund_id := by simpa using hu
        simp [hu, hueq]
      · have hune : ¬ (u.fund_id = fund_id) := by simpa using hu
        simp [hu, hune]
    rw [hcomp, hreg]
    exact ⟨_, rfl, by simp [hp], by simp [hp], by simp [hp]⟩

/-- If the newest transaction is a COMPLETED SUBSCRIPTION to the fund and
nothing in the rest of the scan window is strictly newer, the cancellation
scan picks it. -/
theorem find_last_subscription_cons_newest {X : List Transaction} {T : Transaction}
    (hfid : T.fund_id = fund_id) (hty : T.transaction_type = TxType.SUBSCRIPTION)
    (hst : T.status = TxStatus.COMPLETED)
    (hlate : ∀ t ∈ X, ¬ (T.created_at < t.created_at)) :
    find_last_subscription (T :: X) fund_id = some T := by
  have hany : ((T :: X).any fun t =>
      t.fund_id == fund_id && t.transaction_type == TxType.CANCELLATION &&
      t.status == TxStatus.COMPLETED && decide (T.created_at < t.created_at)) = false := by
    simp only [List.any_eq_false]
    intro t ht
    rcases List.mem_cons.mp ht with rfl | htX
    · simp [hty]
    · simp [hlate t htX]
  unfold find_last_subscription
  apply List.find?_cons_of_pos
  simp [hfid, hty, hst, hany]

/-- The status rewrite applied by `update_status` changes no timestamps. -/
theorem created_at_stampStatus {l : List Transaction} {n : ℕ} {st : TxStatus}
    {t : Transaction} (ht : t ∈ stampStatus n st l) :
    ∃ t0 ∈ l, t.created_at = t0.created_at := by
  obtain ⟨t0, ht0, rfl⟩ := List.mem_map.mp ht
  refine ⟨t0, ht0, ?_⟩
  by_cases h : (t0.id == n) = true
  · simp [h]
  · simp [h]

/-- `Fund.get` only reads the fund table. -/
theorem fundGet_congr {s1 : State} (h : s1.funds = s.funds) :
    fundGet s1 fund_id = fundGet s fund_id := by
  unfold fundGet
  rw [h]

/-- After a successful `FundSubscribeView.post`, the fund table is
untouched and the balance was debited by exactly the minimum. -/
theorem view_subscribe_after (hf : fundGet s fund_id = some f)
    (hact : f.is_active = true) (hallow : (can_user_subscribe s fund_id).1 = true)
    (hb : s.balance = some b) (hle : f.minimum_amount ≤ b) :
    (view_subscribe s fund_id true).2.1.funds = s.funds ∧
    (view_subscribe s fund_id true).2.1.balance = some (b - f.minimum_amount) := by
  rcases can_user_subscribe_true_cases hallow with hreg | ⟨uf, hreg, hinact⟩
  · rw [view_subscribe_success_new hf hact hreg hb hle]; exact ⟨rfl, rfl⟩
  · rw [view_subscribe_success_reactivate hf hact hreg hinact hb hle]; exact ⟨rfl, rfl⟩

/-- `update_status` rewrites only the status field: every row of the
stamped list comes from a stored row with all other fields identical. -/
theorem stampStatus_mem {l : List Transaction} {n : ℕ} {st : TxStatus}
    {t : Transaction} (ht : t ∈ stampStatus n st l) :
    ∃ t0 ∈ l, t.id = t0.id ∧ t.fund_id = t0.fund_id ∧
      t.transaction_type = t0.transaction_type ∧ t.amount = t0.amount ∧
      t.created_at = t0.created_at := by
  obtain ⟨t0, ht0, rfl⟩ := List.mem_map.mp ht
  refine ⟨t0, ht0, ?_⟩
  by_cases h : (t0.id == n) = true
  · simp [h]
  · simp [h]

/-- If no stored row carries the stamped id, `update_status` rewrites
nothing. -/
theorem stampStatus_of_fresh {l : List Transaction} {n : ℕ} {st : TxStatus}
    (h : ∀ t ∈ l, t.id ≠ n) :
    stampStatus n st l = l := by
  unfold stampStatus
  have he : l.map (fun t => if t.id == n then { t with status := st } else t) =
      l.map (fun t => t) :=
    List.map_congr_left (fun t ht => by simp [h t ht])
  rw [he, List.map_id']

/-- Once validation has reached the balance check, lazily creating the
balance row first commutes with `FundService.subscribe_to_fund`. -/
theorem subscribe_to_fund_lazy {saveOk : Bool} (hB : s.balance = none)
    (hf : fundGet s fund_id = some f) (hact : f.is_active = true) :
    subscribe_to_fund s fund_id saveOk =
      subscribe_to_fund { s with balance := some 500000 } fund_id saveOk := by
  have hf2 : fundGet { s with balance := some 500000 } fund_id = some f := hf
  simp only [subscribe_to_fund, hf, hf2, hact, get_or_create_balance, hB,
    Bool.true_eq_false, if_false, ite_false]

/-- Once validation has reached the balance check, lazily creating the
balance row first commutes with `FundSubscribeView.post`. -/
theorem view_subscribe_lazy {saveOk : Bool} (hB : s.balance = none)
    (hf : fundGet s fund_id = some f) (hact : f.is_active = true)
    (hallow : (can_user_subscribe s fund_id).1 = true) :
    view_subscribe s fund_id saveOk =
      view_subscribe { s with balance := some 500000 } fund_id saveOk := by
  have hf2 : fundGet { s with balance := some 500000 } fund_id = some f := hf
  have hallow2 : (can_user_subscribe { s with balance := some 500000 } fund_id).1 =
      true := hallow
  simp only [view_subscribe, hf, hf2, hact, hallow, hallow2, get_or_create_balance,
    hB, Bool.true_eq_false, if_false, ite_false]

/-- Once the ledger scan has found an eligible subscription, lazily
creating the balance row first commutes with
`FundService.cancel_fund_subscription`. -/
theorem cancel_fund_subscription_lazy {queryOk saveOk : Bool} {sub : Transaction}
    (hB : s.balance = none) (hf : fundGet s fund_id = some f)
    (hfind : find_last_subscription (get_user_transactions s 50 queryOk) fund_id =
      some sub) :
    cancel_fund_subscription s fund_id queryOk saveOk =
      cancel_fund_subscription { s with balance := some 500000 } fund_id queryOk
        saveOk := by
  have hf2 : fundGet { s with balance := some 500000 } fund_id = some f := hf
  have hfind2 : find_last_subscription
      (get_user_transactions { s with balance := some 500000 } 50 queryOk) fund_id =
      some sub := hfind
  simp only [cancel_fund_subscription, hf, hf2, hfind, hfind2,
    get_or_create_balance, hB]

/-- Once validation has found an active registry row, lazily creating the
balance row first commutes with `FundCancellationView.post`. -/
theorem view_cancel_lazy {saveOk : Bool} {uf : UserFund} (hB : s.balance = none)
    (hf : fundGet s fund_id = some f)
    (hreg : get_subscription s fund_id = some uf) (hactive : uf.active = true) :
    view_cancel s fund_id saveOk =
      view_cancel { s with balance := some 500000 } fund_id saveOk := by
  have hf2 : fundGet { s with balance := some 500000 } fund_id = some f := hf
  have hreg2 : get_subscription { s with balance := some 500000 } fund_id =
      some uf := hreg
  simp only [view_cancel, hf, hf2, hreg, hreg2, hactive, get_or_create_balance, hB,
    Bool.true_eq_false, if_false, ite_false]

/-- Exhaustive outcome analysis of `FundService.subscribe_to_fund`: either
a validation failure leaves the store untouched (up to the lazily created
balance row), or the flow reaches the ledger write, in which case the new
store and audit trace have one of the two closed forms. -/
theorem subscribe_to_fund_shape (s : State) (fund_id : String) (saveOk : Bool) :
    (∃ s2, (s2 = s ∨ s2 = { s with balance := some 500000 }) ∧
      (subscribe_to_fund s fund_id saveOk).2 = (s2, [])) ∨
    (∃ s2 b f, (s2 = s ∨ s2 = { s with balance := some 500000 }) ∧
      s2.balance = some b ∧ fundGet s fund_id = some f ∧ f.minimum_amount ≤ b ∧
      ((subscribe_to_fund s fund_id saveOk).2 =
          (subscribeSuccessState s2 fund_id f.minimum_amount b,
           writeTrace s2 TxStatus.COMPLETED) ∨
       (subscribe_to_fund s fund_id saveOk).2 =
          (subscribeFailureState s2 fund_id f.minimum_amount,
           writeTrace s2 TxStatus.FAILED))) := by
  rcases hfg : fundGet s fund_id with _ | f
  · exact Or.inl ⟨s, Or.inl rfl, by simp [subscribe_to_fund, hfg]⟩
  · cases hA : f.is_active
    · exact Or.inl ⟨s, Or.inl rfl, by simp [subscribe_to_fund, hfg, hA]⟩
    · rcases hB : s.balance with _ | b
      · rw [subscribe_to_fund_lazy hB hfg hA]
        have hf2 : fundGet { s with balance := some 500000 } fund_id = some f := hfg
        have hb2 : ({ s with balance := some 500000 } : State).balance =
          some 500000 := rfl
        by_cases hcmp : (500000 : ℚ) < f.minimum_amount
        · exact Or.inl ⟨{ s with balance := some 500000 }, Or.inr rfl,
            by rw [subscribe_to_fund_insufficient hf2 hA hb2 hcmp]⟩
        · refine Or.inr ⟨{ s with balance := some 500000 }, 500000, f, Or.inr rfl,
            rfl, rfl, not_lt.mp hcmp, ?_⟩
          cases saveOk
          · exact Or.inr (by rw [subscribe_to_fund_failure hf2 hA hb2 (not_lt.mp hcmp)])
          · exact Or.inl (by rw [subscribe_to_fund_success hf2 hA hb2 (not_lt.mp hcmp)])
      · by_cases hcmp : b < f.minimum_amount
        · exact Or.inl ⟨s, Or.inl rfl,
            by rw [subscribe_to_fund_insufficient hfg hA hB hcmp]⟩
        · refine Or.inr ⟨s, b, f, Or.inl rfl, hB, rfl, not_lt.mp hcmp, ?_⟩
          cases saveOk
          · exact Or.inr (by rw [subscribe_to_fund_failure hfg hA hB (not_lt.mp hcmp)])
          · exact Or.inl (by rw [subscribe_to_fund_success hfg hA hB (not_lt.mp hcmp)])

/-- Exhaustive outcome analysis of `FundSubscribeView.post`. -/
theorem view_subscribe_shape (s : State) (fund_id : String) (saveOk : Bool) :
    (∃ s2, (s2 = s ∨ s2 = { s with balance := some 500000 }) ∧
      (view_subscribe s fund_id saveOk).2 = (s2, [])) ∨
    (∃ s2 b f, (s2 = s ∨ s2 = { s with balance := some 500000 }) ∧
      s2.balance = some b ∧ fundGet s fund_id = some f ∧ f.minimum_amount ≤ b ∧
      ((view_subscribe s fund_id saveOk).2 =
          (viewSubscribeNewState s2 fund_id f.minimum_amount b,
           writeTrace s2 TxStatus.COMPLETED) ∨
       (view_subscribe s fund_id saveOk).2 =
          (viewSubscribeReactState s2 fund_id f.minimum_amount b,
           writeTrace s2 TxStatus.COMPLETED) ∨
       (view_subscribe s fund_id saveOk).2 =
          (subscribeFailureState s2 fund_id f.minimum_amount,
           writeTrace s2 TxStatus.FAILED))) := by
  rcases hfg : fundGet s fund_id with _ | f
  · exact Or.inl ⟨s, Or.inl rfl, by simp [view_subscribe, hfg]⟩
  · cases hA : f.is_active
    · exact Or.inl ⟨s, Or.inl rfl, by simp [view_subscribe, hfg, hA]⟩
    · cases hal : (can_user_subscribe s fund_id).1
      · exact Or.inl ⟨s, Or.inl rfl, by simp [view_subscribe, hfg, hA, hal]⟩
      · rcases hB : s.balance with _ | b
        · rw [view_subscribe_lazy hB hfg hA hal]
          have hf2 : fundGet { s with balance := some 500000 } fund_id = some f := hfg
          have hal2 : (can_user_subscribe { s with balance := some 500000 }
            fund_id).1 = true := hal
          have hb2 : ({ s with balance := some 500000 } : State).balance =
            some 500000 := rfl
          by_cases hcmp : (500000 : ℚ) < f.minimum_amount
          · exact Or.inl ⟨{ s with balance := some 500000 }, Or.inr rfl,
              by rw [view_subscribe_insufficient hf2 hA hal2 hb2 hcmp]⟩
          · refine Or.inr ⟨{ s with balance := some 500000 }, 500000, f, Or.inr rfl,
              rfl, rfl, not_lt.mp hcmp, ?_⟩
            cases saveOk
            · exact Or.inr (Or.inr
                (by rw [view_subscribe_failure hf2 hA hal2 hb2 (not_lt.mp hcmp)]))
            · rcases can_user_subscribe_true_cases hal2 with hreg | ⟨uf, hreg, hinact⟩
              · exact Or.inl
                  (by rw [view_subscribe_success_new hf2 hA hreg hb2 (not_lt.mp hcmp)])
              · exact Or.inr (Or.inl (by rw [view_subscribe_success_reactivate hf2 hA
                  hreg hinact hb2 (not_lt.mp hcmp)]))
        · by_cases hcmp : b < f.minimum_amount
          · exact Or.inl ⟨s, Or.inl rfl,
              by rw [view_subscribe_insufficient hfg hA hal hB hcmp]⟩
          · refine Or.inr ⟨s, b, f, Or.inl rfl, hB, rfl, not_lt.mp hcmp, ?_⟩
            cases saveOk
            · exact Or.inr (Or.inr
                (by rw [view_subscribe_failure hfg hA hal hB (not_lt.mp hcmp)]))
            · rcases can_user_subscribe_true_cases hal with hreg | ⟨uf, hreg, hinact⟩
              · exact Or.inl
                  (by rw [view_subscribe_success_new hfg hA hreg hB (not_lt.mp hcmp)])
              · exact Or.inr (Or.inl (by rw [view_subscribe_success_reactivate hfg hA
                  hreg hinact hB (not_lt.mp hcmp)]))

/-- Exhaustive outcome analysis of `FundService.cancel_fund_subscription`. -/
theorem cancel_fund_subscription_shape (s : State) (fund_id : String)
    (queryOk saveOk : Bool) :
    ((cancel_fund_subscription s fund_id queryOk saveOk).2 = (s, [])) ∨
    (∃ s2 b sub, (s2 = s ∨ s2 = { s with balance := some 500000 }) ∧
      s2.balance = some b ∧ sub ∈ s.transactions ∧
      ((cancel_fund_subscription s fund_id queryOk saveOk).2 =
          (cancelSuccessState s2 fund_id sub.amount b,
           writeTrace s2 TxStatus.COMPLETED) ∨
       (cancel_fund_subscription s fund_id queryOk saveOk).2 =
          (cancelFailureState s2 fund_id sub.amount,
           writeTrace s2 TxStatus.FAILED))) := by
  rcases hfg : fundGet s fund_id with _ | f
  · exact Or.inl (by simp [cancel_fund_subscription, hfg])
  · rcases hfind : find_last_subscription (get_user_transactions s 50 queryOk)
      fund_id with _ | sub
    · exact Or.inl (by rw [cancel_fund_subscription_none hfg hfind])
    · cases queryOk
      · exfalso
        simp [get_user_transactions, find_last_subscription] at hfind
      · have hfind2 : find_last_subscription (s.transactions.take 50) fund_id =
            some sub := by simpa [get_user_transactions] using hfind
        have hmem : sub ∈ s.transactions :=
          List.mem_of_mem_take (List.mem_of_find?_eq_some hfind2)
        rcases hB : s.balance with _ | b
        · rw [cancel_fund_subscription_lazy hB hfg hfind]
          have hf2 : fundGet { s with balance := some 500000 } fund_id = some f := hfg
          have hfind3 : find_last_subscription
              (({ s with balance := some 500000 } : State).transactions.take 50)
              fund_id = some sub := hfind2
          have hb2 : ({ s with balance := some 500000 } : State).balance =
            some 500000 := rfl
          refine Or.inr ⟨{ s with balance := some 500000 }, 500000, sub, Or.inr rfl,
            rfl, hmem, ?_⟩
          cases saveOk
          · exact Or.inr (by rw [cancel_fund_subscription_failure hf2 hfind3 hb2])
          · exact Or.inl (by rw [cancel_fund_subscription_success hf2 hfind3 hb2])
        · refine Or.inr ⟨s, b, sub, Or.inl rfl, hB, hmem, ?_⟩
          cases saveOk
          · exact Or.inr (by rw [cancel_fund_subscription_failure hfg hfind2 hB])
          · exact Or.inl (by rw [cancel_fund_subscription_success hfg hfind2 hB])

/-- Exhaustive outcome analysis of `FundCancellationView.post`. -/
theorem view_cancel_shape (s : State) (fund_id : String) (saveOk : Bool) :
    ((view_cancel s fund_id saveOk).2 = (s, [])) ∨
    (∃ s2 b uf, (s2 = s ∨ s2 = { s with balance := some 500000 }) ∧
      s2.balance = some b ∧ uf ∈ s.userFunds ∧
      ((view_cancel s fund_id saveOk).2 =
          (viewCancelState s2 fund_id uf.invested_amount b,
           writeTrace s2 TxStatus.COMPLETED) ∨
       (view_cancel s fund_id saveOk).2 =
          (cancelFailureState s2 fund_id uf.invested_amount,
           writeTrace s2 TxStatus.FAILED))) := by
  rcases hfg : fundGet s fund_id with _ | f
  · exact Or.inl (by simp [view_cancel, hfg])
  · rcases hreg : get_subscription s fund_id with _ | uf
    · exact Or.inl (by rw [view_cancel_no_row hfg hreg])
    · have hmem : uf ∈ s.userFunds := List.mem_of_find?_eq_some hreg
      cases hact : uf.active
      · exact Or.inl (by rw [view_cancel_inactive hfg hreg hact])
      · rcases hB : s.balance with _ | b
        · rw [view_cancel_lazy hB hfg hreg hact]
          have hf2 : fundGet { s with balance := some 500000 } fund_id = some f := hfg
          have hreg2 : get_subscription { s with balance := some 500000 } fund_id =
            some uf := hreg
          have hb2 : ({ s with balance := some 500000 } : State).balance =
            some 500000 := rfl
          refine Or.inr ⟨{ s with balance := some 500000 }, 500000, uf, Or.inr rfl,
            rfl, hmem, ?_⟩
          cases saveOk
          · exact Or.inr (by rw [view_cancel_failure hf2 hreg2 hact hb2])
          · exact Or.inl (by rw [view_cancel_success hf2 hreg2 hact hb2])
        · refine Or.inr ⟨s, b, uf, Or.inl rfl, hB, hmem, ?_⟩
          cases saveOk
          · exact Or.inr (by rw [view_cancel_failure hfg hreg hact hB])
          · exact Or.inl (by rw [view_cancel_success hfg hreg hact hB])

/-- Lazily creating the default balance row preserves the data-model
invariants. -/
theorem goodState_lazy (h : goodState s) :
    goodState { s with balance := some 500000 } := by
  obtain ⟨-, h2, h3, h4⟩ := h
  refine ⟨?_, h2, h3, h4⟩
  intro q hq
  simp only [Option.mem_def, Option.some.injEq] at hq
  subst hq
  norm_num

/-- A successful subscribe debit preserves the data-model invariants. -/
theorem goodState_subscribeSuccessState {m : ℚ} (h : goodState s) (hm : 0 ≤ m)
    (hmb : m ≤ b) : goodState (subscribeSuccessState s fund_id m b) := by
  obtain ⟨-, h2, h3, h4⟩ := h
  refine ⟨?_, h2, ?_, h4⟩
  · intro q hq
    simp only [subscribeSuccessState, Option.mem_def, Option.some.injEq] at hq
    subst hq
    exact sub_nonneg.mpr hmb
  · intro t ht
    rcases List.mem_cons.mp ht with rfl | ht2
    · simpa [txRecord] using hm
    · obtain ⟨t0, ht0, -, -, -, ham, -⟩ := stampStatus_mem ht2
      rw [ham]
      exact h3 t0 ht0

/-- A failed subscribe write preserves the data-model invariants. -/
theorem goodState_subscribeFailureState {m : ℚ} (h : goodState s) (hm : 0 ≤ m) :
    goodState (subscribeFailureState s fund_id m) := by
  obtain ⟨h1, h2, h3, h4⟩ := h
  refine ⟨h1, h2, ?_, h4⟩
  intro t ht
  rcases List.mem_cons.mp ht with rfl | ht2
  · simpa [txRecord] using hm
  · obtain ⟨t0, ht0, -, -, -, ham, -⟩ := stampStatus_mem ht2
    rw [ham]
    exact h3 t0 ht0

/-- A successful cancel credit preserves the data-model invariants. -/
theorem goodState_cancelSuccessState {r : ℚ} (h : goodState s) (hr : 0 ≤ r)
    (hb0 : 0 ≤ b) : goodState (cancelSuccessState s fund_id r b) := by
  obtain ⟨-, h2, h3, h4⟩ := h
  refine ⟨?_, h2, ?_, h4⟩
  · intro q hq
    simp only [cancelSuccessState, Option.mem_def, Option.some.injEq] at hq
    subst hq
    exact add_nonneg hb0 hr
  · intro t ht
    rcases List.mem_cons.mp ht with rfl | ht2
    · simpa [txRecord] using hr
    · obtain ⟨t0, ht0, -, -, -, ham, -⟩ := stampStatus_mem ht2
      rw [ham]
      exact h3 t0 ht0

/-- A failed cancel write preserves the data-model invariants. -/
theorem goodState_cancelFailureState {r : ℚ} (h : goodState s) (hr : 0 ≤ r) :
    goodState (cancelFailureState s fund_id r) := by
  obtain ⟨h1, h2, h3, h4⟩ := h
  refine ⟨h1, h2, ?_, h4⟩
  intro t ht
  rcases List.mem_cons.mp ht with rfl | ht2
  · simpa [txRecord] using hr
  · obtain ⟨t0, ht0, -, -, -, ham, -⟩ := stampStatus_mem ht2
    rw [ham]
    exact h3 t0 ht0

/-- A successful view subscribe that inserts a registry row preserves the
data-model invariants. -/
theorem goodState_viewSubscribeNewState {m : ℚ} (h : goodState s) (hm : 0 ≤ m)
    (hmb : m ≤ b) : goodState (viewSubscribeNewState s fund_id m b) := by
  have hsub : goodState (subscribeSuccessState s fund_id m b) :=
    goodState_subscribeSuccessState h hm hmb
  obtain ⟨hg1, hg2, hg3, hg4⟩ := hsub
  refine ⟨hg1, hg2, hg3, ?_⟩
  intro uf huf
  rcases List.mem_cons.mp huf with rfl | huf2
  · simpa using hm
  · exact hg4 uf huf2

/-- A successful view subscribe that reactivates a registry row preserves
the data-model invariants. -/
theorem goodState_viewSubscribeReactState {m : ℚ} (h : goodState s) (hm : 0 ≤ m)
    (hmb : m ≤ b) : goodState (viewSubscribeReactState s fund_id m b) := by
  have hsub : goodState (subscribeSuccessState s fund_id m b) :=
    goodState_subscribeSuccessState h hm hmb
  obtain ⟨hg1, hg2, hg3, -⟩ := hsub
  refine ⟨hg1, hg2, hg3, ?_⟩
  intro uf huf
  obtain ⟨u0, hu0, rfl⟩ := List.mem_map.mp huf
  by_cases hc : (u0.fund_id == fund_id) = true
  · simpa [hc] using hm
  · simpa [hc] using h.2.2.2 u0 hu0

/-- A successful view cancel preserves the data-model invariants. -/
theorem goodState_viewCancelState {r : ℚ} (h : goodState s) (hr : 0 ≤ r)
    (hb0 : 0 ≤ b) : goodState (viewCancelState s fund_id r b) := by
  have hcanc : goodState (cancelSuccessState s fund_id r b) :=
    goodState_cancelSuccessState h hr hb0
  obtain ⟨hg1, hg2, hg3, -⟩ := hcanc
  refine ⟨hg1, hg2, hg3, ?_⟩
  intro uf huf
  obtain ⟨u0, hu0, rfl⟩ := List.mem_map.mp huf
  by_cases hc : (u0.fund_id == fund_id) = true
  · simpa [hc] using h.2.2.2 u0 hu0
  · simpa [hc] using h.2.2.2 u0 hu0

/-- Every single workflow invocation preserves the data-model
invariants. -/
theorem goodState_runOp (op : Op) (h : goodState s) :
    goodState (runOp op s).1 := by
  have hlazy : goodState { s with balance := some 500000 } := goodState_lazy h
  cases op with
  | serviceSubscribe fid sOk =>
    rcases subscribe_to_fund_shape s fid sOk with
      ⟨s2, hs2, heq⟩ | ⟨s2, b, f, hs2, hb2, hf, hle, hcase⟩
    · simp only [runOp, heq]
      rcases hs2 with rfl | rfl
      · exact h
      · exact hlazy
    · have hgood2 : goodState s2 := by
        rcases hs2 with rfl | rfl
        · exact h
        · exact hlazy
      have hm : 0 ≤ f.minimum_amount := h.2.1 f (List.mem_of_find?_eq_some hf)
      rcases hcase with heq | heq
      · simp only [runOp, heq]
        exact goodState_subscribeSuccessState hgood2 hm hle
      · simp only [runOp, heq]
        exact goodState_subscribeFailureState hgood2 hm
  | serviceCancel fid qOk sOk =>
    rcases cancel_fund_subscription_shape s fid qOk sOk with
      heq | ⟨s2, b, sub, hs2, hb2, hmem, hcase⟩
    · simp only [runOp, heq]
      exact h
    · have hgood2 : goodState s2 := by
        rcases hs2 with rfl | rfl
        · exact h
        · exact hlazy
      have hr : 0 ≤ sub.amount := h.2.2.1 sub hmem
      have hb0 : 0 ≤ b := hgood2.1 b (by simp [hb2])
      rcases hcase with heq | heq
      · simp only [runOp, heq]
        exact goodState_cancelSuccessState hgood2 hr hb0
      · simp only [runOp, heq]
        exact goodState_cancelFailureState hgood2 hr
  | viewSubscribe fid sOk =>
    rcases view_subscribe_shape s fid sOk with
      ⟨s2, hs2, heq⟩ | ⟨s2, b, f, hs2, hb2, hf, hle, hcase⟩
    · simp only [runOp, heq]
      rcases hs2 with rfl | rfl
      · exact h
      · exact hlazy
    · have hgood2 : goodState s2 := by
        rcases hs2 with rfl | rfl
        · exact h
        · exact hlazy
      have hm : 0 ≤ f.minimum_amount := h.2.1 f (List.mem_of_find?_eq_some hf)
      rcases hcase with heq | heq | heq
      · simp only [runOp, heq]
        exact goodState_viewSubscribeNewState hgood2 hm hle
      · simp only [runOp, heq]
        exact goodState_viewSubscribeReactState hgood2 hm hle
      · simp only [runOp, heq]
        exact goodState_subscribeFailureState hgood2 hm
  | viewCancel fid sOk =>
    rcases view_cancel_shape s fid sOk with
      heq | ⟨s2, b, uf, hs2, hb2, hmem, hcase⟩
    · simp only [runOp, heq]
      exact h
    · have hgood2 : goodState s2 := by
        rcases hs2 with rfl | rfl
        · exact h
        · exact hlazy
      have hr : 0 ≤ uf.invested_amount := h.2.2.2 uf hmem
      have hb0 : 0 ≤ b := hgood2.1 b (by simp [hb2])
      rcases hcase with heq | heq
      · simp only [runOp, heq]
        exact goodState_viewCancelState hgood2 hr hb0
      · simp only [runOp, heq]
        exact goodState_cancelFailureState hgood2 hr

/-- Every event in an audit trace of the form `writeTrace` obeys the
transaction state machine. -/
theorem eventOk_writeTrace {s2 : State} {st : TxStatus}
    (hst : st = TxStatus.COMPLETED ∨ st = TxStatus.FAILED) :
    ∀ e ∈ writeTrace s2 st, eventOk e := by
  intro e he
  simp only [writeTrace, List.mem_cons, List.mem_singleton, List.not_mem_nil,
    or_false] at he
  rcases he with rfl | rfl
  · simp [eventOk]
  · simp [eventOk, hst]

/-- In a store with fresh ids, a ledger write keeps every stored row
verbatim and keeps ids fresh. -/
theorem lifecycle_write_case {X s2 : State} {fid : String} {ty : TxType}
    {am : ℚ} {st : TxStatus}
    (hX : X.transactions =
      txRecord s2 fid ty am st :: stampStatus s2.nextTxId st s2.transactions)
    (hXn : X.nextTxId = s2.nextTxId + 1)
    (hfresh2 : TxIdsFresh s2) :
    (∀ t ∈ s2.transactions, t ∈ X.transactions) ∧ TxIdsFresh X := by
  have hstamp : stampStatus s2.nextTxId st s2.transactions = s2.transactions :=
    stampStatus_of_fresh (fun t2 ht2 => Nat.ne_of_lt (hfresh2 t2 ht2))
  constructor
  · intro t ht
    rw [hX, hstamp]
    exact List.mem_cons_of_mem _ ht
  · intro t ht
    rw [hX, hstamp] at ht
    rw [hXn]
    rcases List.mem_cons.mp ht with rfl | ht2
    · simp [txRecord]
    · exact Nat.lt_succ_of_lt (hfresh2 t ht2)

/-- One hundredth is not representable in binary floating point: its
reduced denominator has the factor 5. -/
theorem not_doubleRepresentable_hundredth : ¬ doubleRepresentable (1 / 100) := by
  rintro ⟨m, e, -, heq⟩
  rcases le_or_lt 0 e with he | he
  · lift e to ℕ using he
    rw [zpow_natCast] at heq
    have h1 : (1 : ℚ) = (m : ℚ) * 2 ^ e * 100 :=
      (div_eq_iff (by norm_num : (100 : ℚ) ≠ 0)).mp heq
    have h2 : (1 : ℤ) = m * 2 ^ e * 100 := by exact_mod_cast h1
    have h3 : (100 : ℤ) ∣ 1 := ⟨m * 2 ^ e, by rw [h2]; ring⟩
    have h4 := Int.le_of_dvd one_pos h3
    norm_num at h4
  · obtain ⟨k, rfl⟩ : ∃ k : ℕ, e = -(k : ℤ) := ⟨(-e).toNat, by omega⟩
    rw [zpow_neg, zpow_natCast, ← div_eq_mul_inv] at heq
    have h1 : (1 : ℚ) * 2 ^ k = (m : ℚ) * 100 :=
      (div_eq_div_iff (by norm_num : (100 : ℚ) ≠ 0)
        (by positivity : (2 : ℚ) ^ k ≠ 0)).mp heq
    rw [one_mul] at h1
    have h2 : (2 : ℤ) ^ k = m * 100 := by exact_mod_cast h1
    have h5 : (5 : ℤ) ∣ 2 ^ k := ⟨m * 20, by rw [h2]; ring⟩
    have hp : Prime (5 : ℤ) := by norm_num
    have h6 : (5 : ℤ) ∣ 2 := hp.dvd_of_dvd_pow h5
    norm_num at h6

end Lemmas

section Claims

variable {s : State} {fund_id : String} {f : Fund} {b : ℚ}

/-- C1: for every user and every existing active fund, if the available
balance is at least the fund's `minimum_amount` then subscribing succeeds,
charges exactly `minimum_amount`, and leaves balance = old − minimum (so
equality leaves exactly 0); if the balance is strictly below the minimum,
subscribing fails with the insufficient-balance error and the store —
in particular the balance — is unchanged.  Proven for both entry points:
`FundService.subscribe_to_fund` and `FundSubscribeView.post` (the latter
additionally requires its duplicate-subscription validation to pass). -/
theorem subscribe_balance_threshold (hf : fundGet s fund_id = some f)
    (hact : f.is_active = true) (hb : s.balance = some b)
    (hallow : (can_user_subscribe s fund_id).1 = true) :
    (f.minimum_amount ≤ b →
      ∃ t, (subscribe_to_fund s fund_id true).1 = SubscribeResult.subscribed t ∧
        t.amount = f.minimum_amount ∧
        (subscribe_to_fund s fund_id true).2.1.balance = some (b - f.minimum_amount)) ∧
    (b < f.minimum_amount →
      (subscribe_to_fund s fund_id true).1 = SubscribeResult.insufficientBalance ∧
      (subscribe_to_fund s fund_id true).2.1 = s) ∧
    (f.minimum_amount ≤ b →
      ∃ t, (view_subscribe s fund_id true).1 =
          ViewSubscribeResult.created t (b - f.minimum_amount) ∧
        t.amount = f.minimum_amount ∧
        (view_subscribe s fund_id true).2.1.balance = some (b - f.minimum_amount)) ∧
    (b < f.minimum_amount →
      (view_subscribe s fund_id true).1 = ViewSubscribeResult.insufficientBalance ∧
      (view_subscribe s fund_id true).2.1 = s) := by
  refine ⟨?_, ?_, ?_, ?_⟩
  · intro hle
    rw [subscribe_to_fund_success hf hact hb hle]
    exact ⟨_, rfl, rfl, rfl⟩
  · intro hlt
    rw [subscribe_to_fund_insufficient hf hact hb hlt]
    exact ⟨rfl, rfl⟩
  · intro hle
    rcases can_user_subscribe_true_cases hallow with hreg | ⟨uf, hreg, hinact⟩
    · rw [view_subscribe_success_new hf hact hreg hb hle]
      exact ⟨_, rfl, rfl, rfl⟩
    · rw [view_subscribe_success_reactivate hf hact hreg hinact hb hle]
      exact ⟨_, rfl, rfl, rfl⟩
  · intro hlt
    rw [view_subscribe_insufficient hf hact hallow hb hlt]
    exact ⟨rfl, rfl⟩

/-- Witness for C1 at concrete inputs: balance 500000 against minimum
125000 succeeds leaving 375000; balance 124999 (one peso short) fails
leaving the store untouched. -/
theorem subscribe_balance_threshold_witness :
    (∃ t, (subscribe_to_fund state0 "fund_a" true).1 = SubscribeResult.subscribed t ∧
      t.amount = fundA.minimum_amount ∧
      (subscribe_to_fund state0 "fund_a" true).2.1.balance = some 375000) ∧
    ((subscribe_to_fund stateLow "fund_a" true).1 =
        SubscribeResult.insufficientBalance ∧
      (subscribe_to_fund stateLow "fund_a" true).2.1 = stateLow) := by
  have h0 := subscribe_balance_threshold (s := state0) (b := 500000)
    (rfl : fundGet state0 "fund_a" = some fundA) rfl rfl rfl
  have hL := subscribe_balance_threshold (s := stateLow) (b := 124999)
    (rfl : fundGet stateLow "fund_a" = some fundA) rfl rfl rfl
  obtain ⟨t, h1, h2, h3⟩ := h0.1 (by norm_num [fundA])
  refine ⟨⟨t, h1, h2, ?_⟩, hL.2.1 (by norm_num [fundA])⟩
  rw [h3]
  norm_num [fundA]

/-- C4: subscribing twice in sequence to the same (user, fund) pair with no
cancellation in between (through the served entry point
`FundSubscribeView.post`): the first call succeeds; the second call fails
with the already-subscribed error and leaves the entire store — in
particular the balance — exactly as the first call left it (no second
debit); and an existing inactive registry row does not block a subscribe
(`UserFund.can_user_subscribe` allows it). -/
theorem double_subscribe_blocked (hf : fundGet s fund_id = some f)
    (hact : f.is_active = true) (hb : s.balance = some b)
    (hallow : (can_user_subscribe s fund_id).1 = true)
    (hle : f.minimum_amount ≤ b) :
    (∃ t nb, (view_subscribe s fund_id true).1 = ViewSubscribeResult.created t nb) ∧
    (∀ saveOk2 : Bool,
      (view_subscribe (view_subscribe s fund_id true).2.1 fund_id saveOk2).1 =
        ViewSubscribeResult.alreadySubscribed ∧
      (view_subscribe (view_subscribe s fund_id true).2.1 fund_id saveOk2).2.1 =
        (view_subscribe s fund_id true).2.1) ∧
    (∀ uf, get_subscription s fund_id = some uf → uf.active = false →
      (can_user_subscribe s fund_id).1 = true) := by
  obtain ⟨uf2, hreg2, hactive2, -, -⟩ := view_subscribe_registry hf hact hallow hb hle
  have hf2 : fundGet (view_subscribe s fund_id true).2.1 fund_id = some f := by
    rcases can_user_subscribe_true_cases hallow with hreg | ⟨uf, hreg, hinact⟩
    · rw [view_subscribe_success_new hf hact hreg hb hle]; exact hf
    · rw [view_subscribe_success_reactivate hf hact hreg hinact hb hle]; exact hf
  refine ⟨?_, ?_, ?_⟩
  · rcases can_user_subscribe_true_cases hallow with hreg | ⟨uf, hreg, hinact⟩
    · rw [view_subscribe_success_new hf hact hreg hb hle]; exact ⟨_, _, rfl⟩
    · rw [view_subscribe_success_reactivate hf hact hreg hinact hb hle]; exact ⟨_, _, rfl⟩
  · intro saveOk2
    rw [view_subscribe_already hf2 hact hreg2 hactive2]
    exact ⟨rfl, rfl⟩
  · intro uf hreg hinact
    simp [can_user_subscribe, hreg, hinact]

/-- Witness for C4 at concrete inputs: from the fresh store, the first
subscribe to `fundA` succeeds and the second fails with the
already-subscribed error, changing nothing. -/
theorem double_subscribe_blocked_witness :
    (∃ t nb, (view_subscribe state0 "fund_a" true).1 =
      ViewSubscribeResult.created t nb) ∧
    ((view_subscribe (view_subscribe state0 "fund_a" true).2.1 "fund_a" true).1 =
      ViewSubscribeResult.alreadySubscribed ∧
     (view_subscribe (view_subscribe state0 "fund_a" true).2.1 "fund_a" true).2.1 =
      (view_subscribe state0 "fund_a" true).2.1) := by
  have h := double_subscribe_blocked (s := state0) (b := 500000)
    (rfl : fundGet state0 "fund_a" = some fundA) rfl rfl rfl
    (by norm_num [fundA])
  exact ⟨h.1, h.2.1 true⟩

/-- C2: from any store whose timestamps are below the clock, a successful
subscribe immediately followed by a successful cancel of the same fund
restores the available balance to exactly its initial value: the subscribe
debits the fund minimum and the cancel credits the amount that was
actually charged.  Proven for both pipelines: `FundService`
(`subscribe_to_fund` then `cancel_fund_subscription`, which refunds the
ledger transaction's amount) and the served views (`FundSubscribeView.post`
then `FundCancellationView.post`, which refunds the registry row's
`invested_amount`). -/
theorem subscribe_cancel_round_trip (hf : fundGet s fund_id = some f)
    (hact : f.is_active = true) (hb : s.balance = some b)
    (hallow : (can_user_subscribe s fund_id).1 = true)
    (hle : f.minimum_amount ≤ b)
    (hclock : ∀ t ∈ s.transactions, t.created_at < s.clock) :
    ((∃ t, (subscribe_to_fund s fund_id true).1 = SubscribeResult.subscribed t) ∧
     (∃ t, (cancel_fund_subscription (subscribe_to_fund s fund_id true).2.1
         fund_id true true).1 = CancelResult.cancelled t) ∧
     (cancel_fund_subscription (subscribe_to_fund s fund_id true).2.1
         fund_id true true).2.1.balance = some b) ∧
    ((∃ t nb, (view_subscribe s fund_id true).1 = ViewSubscribeResult.created t nb) ∧
     (∃ t nb, (view_cancel (view_subscribe s fund_id true).2.1 fund_id true).1 =
         ViewCancelResult.cancelled t nb) ∧
     (view_cancel (view_subscribe s fund_id true).2.1 fund_id true).2.1.balance =
       some b) := by
  constructor
  · have e1 : (subscribe_to_fund s fund_id true).2.1 =
        subscribeSuccessState s fund_id f.minimum_amount b := by
      rw [subscribe_to_fund_success hf hact hb hle]
    have hfind : find_last_subscription
        ((subscribeSuccessState s fund_id f.minimum_amount b).transactions.take 50)
          fund_id =
        some (txRecord s fund_id TxType.SUBSCRIPTION f.minimum_amount
          TxStatus.COMPLETED) := by
      show find_last_subscription
        ((txRecord s fund_id TxType.SUBSCRIPTION f.minimum_amount TxStatus.COMPLETED ::
          stampStatus s.nextTxId TxStatus.COMPLETED s.transactions).take 50) fund_id = _
      rw [show (50 : ℕ) = 49 + 1 from rfl, List.take_succ_cons]
      apply find_last_subscription_cons_newest rfl rfl rfl
      intro t ht
      obtain ⟨t0, ht0, heq⟩ := created_at_stampStatus (List.mem_of_mem_take ht)
      simp only [txRecord, heq]
      exact not_lt.mpr (le_of_lt (hclock t0 ht0))
    have hb1 : (subscribeSuccessState s fund_id f.minimum_amount b).balance =
        some (b - f.minimum_amount) := rfl
    have hf1 : fundGet (subscribeSuccessState s fund_id f.minimum_amount b) fund_id =
        some f := hf
    rw [e1, subscribe_to_fund_success hf hact hb hle,
      cancel_fund_subscription_success hf1 hfind hb1]
    refine ⟨⟨_, rfl⟩, ⟨_, rfl⟩, ?_⟩
    simp [cancelSuccessState, txRecord, sub_add_cancel]
  · obtain ⟨hfunds, hbal⟩ := view_subscribe_after hf hact hallow hb hle
    obtain ⟨uf2, hreg2, hactive2, hinv2, -⟩ := view_subscribe_registry hf hact hallow hb hle
    have hf2 : fundGet (view_subscribe s fund_id true).2.1 fund_id = some f := by
      rw [fundGet_congr hfunds]; exact hf
    refine ⟨?_, ?_, ?_⟩
    · rcases can_user_subscribe_true_cases hallow with hreg | ⟨uf, hreg, hinact⟩
      · rw [view_subscribe_success_new hf hact hreg hb hle]; exact ⟨_, _, rfl⟩
      · rw [view_subscribe_success_reactivate hf hact hreg hinact hb hle]; exact ⟨_, _, rfl⟩
    · rw [view_cancel_success hf2 hreg2 hactive2 hbal]
      exact ⟨_, _, rfl⟩
    · rw [view_cancel_success hf2 hreg2 hactive2 hbal]
      simp [viewCancelState, cancelSuccessState, hinv2, sub_add_cancel]

/-- Witness for C2 at concrete inputs: from the fresh store with balance
500000, subscribing to `fundA` (minimum 125000) and then cancelling it
restores the balance to exactly 500000 in both pipelines. -/
theorem subscribe_cancel_round_trip_witness :
    (cancel_fund_subscription (subscribe_to_fund state0 "fund_a" true).2.1
        "fund_a" true true).2.1.balance = some 500000 ∧
    (view_cancel (view_subscribe state0 "fund_a" true).2.1 "fund_a" true).2.1.balance =
      some 500000 := by
  have h := subscribe_cancel_round_trip (s := state0) (b := 500000)
    (rfl : fundGet state0 "fund_a" = some fundA) rfl rfl rfl
    (by norm_num [fundA]) (by simp [state0])
  exact ⟨h.1.2.2, h.2.2.2⟩

/-- Every finite sequence of workflow invocations preserves the data-model
invariants. -/
theorem goodState_runOps (ops : List Op) :
    ∀ s : State, goodState s → goodState (runOps ops s) := by
  induction ops with
  | nil => exact fun s h => h
  | cons op ops ih => exact fun s h => ih _ (goodState_runOp op h)

/-- C3: starting from any store satisfying the data-model invariants of §3
— a non-negative available balance (the lazily created default 500000
included) and non-negative stored amounts (fund minimums, transaction
amounts, registry amounts, as the spec requires of them) — after every
finite sequence of subscribe and cancel invocations, through either entry
point and under any storage outcomes, the available balance is never
negative. -/
theorem balance_never_negative (ops : List Op) (h : goodState s) :
    ∀ q ∈ (runOps ops s).balance, 0 ≤ q :=
  (goodState_runOps ops s h).1

/-- Witness for C3: from the fresh store, after a subscribe, a cancel and
a failing subscribe the balance is still non-negative. -/
theorem balance_never_negative_witness :
    goodState state0 ∧
    ∀ q ∈ (runOps [Op.viewSubscribe "fund_a" true, Op.viewCancel "fund_a" true,
        Op.serviceSubscribe "fund_a" false] state0).balance, 0 ≤ q := by
  have hg : goodState state0 := by
    refine ⟨?_, ?_, ?_, ?_⟩ <;> intro x hx <;>
      simp only [state0, Option.mem_def, Option.some.injEq, List.mem_singleton,
        List.not_mem_nil] at hx
    · subst hx; norm_num
    · subst hx; norm_num [fundA]
  exact ⟨hg, balance_never_negative _ hg⟩

/-- C8: in every store whose transaction ids are fresh (true of all stores
reachable from an empty ledger), any workflow invocation (a) only emits
ledger events that create transactions with status PENDING or move a
status from PENDING to COMPLETED or to FAILED, (b) keeps every previously
stored transaction row — in particular every COMPLETED or FAILED one —
verbatim, never reopening a terminal status, and (c) preserves id
freshness, closing the reachable states under steps. -/
theorem transaction_lifecycle (op : Op) (hfresh : TxIdsFresh s) :
    (∀ e ∈ (runOp op s).2, eventOk e) ∧
    (∀ t ∈ s.transactions, t ∈ (runOp op s).1.transactions) ∧
    TxIdsFresh (runOp op s).1 := by
  cases op with
  | serviceSubscribe fid sOk =>
    rcases subscribe_to_fund_shape s fid sOk with
      ⟨s2, hs2, heq⟩ | ⟨s2, b, f, hs2, hb2, hf, hle, hcase⟩
    · simp only [runOp, heq]
      rcases hs2 with rfl | rfl
      · exact ⟨by simp, fun t ht => ht, hfresh⟩
      · exact ⟨by simp, fun t ht => ht, hfresh⟩
    · have hfresh2 : TxIdsFresh s2 := by
        rcases hs2 with rfl | rfl
        · exact hfresh
        · exact hfresh
      rcases hcase with heq | heq
      · simp only [runOp, heq]
        obtain ⟨hpres, hfr⟩ := lifecycle_write_case
          (X := subscribeSuccessState s2 fid f.minimum_amount b) rfl rfl hfresh2
        refine ⟨eventOk_writeTrace (Or.inl rfl), ?_, hfr⟩
        intro t ht
        rcases hs2 with rfl | rfl
        · exact hpres t ht
        · exact hpres t ht
      · simp only [runOp, heq]
        obtain ⟨hpres, hfr⟩ := lifecycle_write_case
          (X := subscribeFailureState s2 fid f.minimum_amount) rfl rfl hfresh2
        refine ⟨eventOk_writeTrace (Or.inr rfl), ?_, hfr⟩
        intro t ht
        rcases hs2 with rfl | rfl
        · exact hpres t ht
        · exact hpres t ht
  | serviceCancel fid qOk sOk =>
    rcases cancel_fund_subscription_shape s fid qOk sOk with
      heq | ⟨s2, b, sub, hs2, hb2, hmem, hcase⟩
    · simp only [runOp, heq]
      exact ⟨by simp, fun t ht => ht, hfresh⟩
    · have hfresh2 : TxIdsFresh s2 := by
        rcases hs2 with rfl | rfl
        · exact hfresh
        · exact hfresh
      rcases hcase with heq | heq
      · simp only [runOp, heq]
        obtain ⟨hpres, hfr⟩ := lifecycle_write_case
          (X := cancelSuccessState s2 fid sub.amount b) rfl rfl hfresh2
        refine ⟨eventOk_writeTrace (Or.inl rfl), ?_, hfr⟩
        intro t ht
        rcases hs2 with rfl | rfl
        · exact hpres t ht
        · exact hpres t ht
      · simp only [runOp, heq]
        obtain ⟨hpres, hfr⟩ := lifecycle_write_case
          (X := cancelFailureState s2 fid sub.amount) rfl rfl hfresh2
        refine ⟨eventOk_writeTrace (Or.inr rfl), ?_, hfr⟩
        intro t ht
        rcases hs2 with rfl | rfl
        · exact hpres t ht
        · exact hpres t ht
  | viewSubscribe fid sOk =>
    rcases view_subscribe_shape s fid sOk with
      ⟨s2, hs2, heq⟩ | ⟨s2, b, f, hs2, hb2, hf, hle, hcase⟩
    · simp only [runOp, heq]
      rcases hs2 with rfl | rfl
      · exact ⟨by simp, fun t ht => ht, hfresh⟩
      · exact ⟨by simp, fun t ht => ht, hfresh⟩
    · have hfresh2 : TxIdsFresh s2 := by
        rcases hs2 with rfl | rfl
        · exact hfresh
        · exact hfresh
      rcases hcase with heq | heq | heq
      · simp only [runOp, heq]
        obtain ⟨hpres, hfr⟩ := lifecycle_write_case
          (X := viewSubscribeNewState s2 fid f.minimum_amount b) rfl rfl hfresh2
        refine ⟨eventOk_writeTrace (Or.inl rfl), ?_, hfr⟩
        intro t ht
        rcases hs2 with rfl | rfl
        · exact hpres t ht
        · exact hpres t ht
      · simp only [runOp, heq]
        obtain ⟨hpres, hfr⟩ := lifecycle_write_case
          (X := viewSubscribeReactState s2 fid f.minimum_amount b) rfl rfl hfresh2
        refine ⟨eventOk_writeTrace (Or.inl rfl), ?_, hfr⟩
        intro t ht
        rcases hs2 with rfl | rfl
        · exact hpres t ht
        · exact hpres t ht
      · simp only [runOp, heq]
        obtain ⟨hpres, hfr⟩ := lifecycle_write_case
          (X := subscribeFailureState s2 fid f.minimum_amount) rfl rfl hfresh2
        refine ⟨eventOk_writeTrace (Or.inr rfl), ?_, hfr⟩
        intro t ht
        rcases hs2 with rfl | rfl
        · exact hpres t ht
        · exact hpres t ht
  | viewCancel fid sOk =>
    rcases view_cancel_shape s fid sOk with
      heq | ⟨s2, b, uf, hs2, hb2, hmem, hcase⟩
    · simp only [runOp, heq]
      exact ⟨by simp, fun t ht => ht, hfresh⟩
    · have hfresh2 : TxIdsFresh s2 := by
        rcases hs2 with rfl | rfl
        · exact hfresh
        · exact hfresh
      rcases hcase with heq | heq
      · simp only [runOp, heq]
        obtain ⟨hpres, hfr⟩ := lifecycle_write_case
          (X := viewCancelState s2 fid uf.invested_amount b) rfl rfl hfresh2
        refine ⟨eventOk_writeTrace (Or.inl rfl), ?_, hfr⟩
        intro t ht
        rcases hs2 with rfl | rfl
        · exact hpres t ht
        · exact hpres t ht
      · simp only [runOp, heq]
        obtain ⟨hpres, hfr⟩ := lifecycle_write_case
          (X := cancelFailureState s2 fid uf.invested_amount) rfl rfl hfresh2
        refine ⟨eventOk_writeTrace (Or.inr rfl), ?_, hfr⟩
        intro t ht
        rcases hs2 with rfl | rfl
        · exact hpres t ht
        · exact hpres t ht

/-- Witness for C8 at a concrete input: a subscribe on the store left by
an earlier subscribe emits only PENDING-creations and PENDING → terminal
status moves, and keeps the earlier COMPLETED transaction verbatim. -/
theorem transaction_lifecycle_witness :
    TxIdsFresh stateSub ∧
    (∀ e ∈ (runOp (Op.serviceSubscribe "fund_a" true) stateSub).2, eventOk e) ∧
    (∀ t ∈ stateSub.transactions,
      t ∈ (runOp (Op.serviceSubscribe "fund_a" true) stateSub).1.transactions) := by
  have hfr : TxIdsFresh stateSub := by
    intro t ht
    simp only [stateSub, List.mem_singleton] at ht
    subst ht
    norm_num [subTx0, stateSub]
  have h := transaction_lifecycle (Op.serviceSubscribe "fund_a" true) hfr
  exact ⟨hfr, h.1, h.2.1⟩

/-- C5: if validation passed but the balance write fails during subscribe,
the operation returns the failure result, the PENDING transaction that was
created ends FAILED — no event ever sets it COMPLETED — and the
subscription registry and the balance are untouched.  Proven for both
entry points. -/
theorem subscribe_failure_isolation (hf : fundGet s fund_id = some f)
    (hact : f.is_active = true) (hb : s.balance = some b)
    (hallow : (can_user_subscribe s fund_id).1 = true)
    (hle : f.minimum_amount ≤ b) :
    ((subscribe_to_fund s fund_id false).1 = SubscribeResult.updateFailed ∧
     (subscribe_to_fund s fund_id false).2.1.userFunds = s.userFunds ∧
     (subscribe_to_fund s fund_id false).2.1.balance = s.balance ∧
     txRecord s fund_id TxType.SUBSCRIPTION f.minimum_amount TxStatus.FAILED ∈
       (subscribe_to_fund s fund_id false).2.1.transactions ∧
     (∀ old, LedgerEvent.setStatus s.nextTxId old TxStatus.COMPLETED ∉
       (subscribe_to_fund s fund_id false).2.2)) ∧
    ((view_subscribe s fund_id false).1 = ViewSubscribeResult.transactionFailed ∧
     (view_subscribe s fund_id false).2.1.userFunds = s.userFunds ∧
     (view_subscribe s fund_id false).2.1.balance = s.balance ∧
     txRecord s fund_id TxType.SUBSCRIPTION f.minimum_amount TxStatus.FAILED ∈
       (view_subscribe s fund_id false).2.1.transactions ∧
     (∀ old, LedgerEvent.setStatus s.nextTxId old TxStatus.COMPLETED ∉
       (view_subscribe s fund_id false).2.2)) := by
  constructor
  · rw [subscribe_to_fund_failure hf hact hb hle]
    refine ⟨rfl, rfl, rfl, List.mem_cons_self _ _, ?_⟩
    intro old
    simp [writeTrace]
  · rw [view_subscribe_failure hf hact hallow hb hle]
    refine ⟨rfl, rfl, rfl, List.mem_cons_self _ _, ?_⟩
    intro old
    simp [writeTrace]

/-- Witness for C5 at the fresh store: the failing-write subscribe leaves
the registry empty and the balance at 500000, and reports the failure. -/
theorem subscribe_failure_isolation_witness :
    (subscribe_to_fund state0 "fund_a" false).1 = SubscribeResult.updateFailed ∧
    (subscribe_to_fund state0 "fund_a" false).2.1.userFunds = state0.userFunds ∧
    (subscribe_to_fund state0 "fund_a" false).2.1.balance = state0.balance ∧
    (view_subscribe state0 "fund_a" false).1 =
      ViewSubscribeResult.transactionFailed := by
  have h := subscribe_failure_isolation (s := state0) (b := 500000)
    (rfl : fundGet state0 "fund_a" = some fundA) rfl rfl rfl
    (by norm_num [fundA])
  exact ⟨h.1.1, h.1.2.1, h.1.2.2.1, h.2.1⟩

/-- C6: cancellation eligibility in
`FundService.cancel_fund_subscription` is decided by the ledger scan
`find_last_subscription` (the newest COMPLETED SUBSCRIPTION for the fund
with no strictly later COMPLETED CANCELLATION for it); when the scan finds
nothing the call fails with the no-active-subscription error and the whole
store, the balance included, is unchanged and no CANCELLATION transaction
is written; the scan finds nothing both when there is no completed
subscription at all and when every completed subscription has a strictly
later completed cancellation for the fund. -/
theorem cancel_requires_completed_subscription
    (hf : fundGet s fund_id = some f) :
    (∀ saveOk : Bool,
      find_last_subscription (get_user_transactions s 50 true) fund_id = none →
      cancel_fund_subscription s fund_id true saveOk =
        (CancelResult.noActiveSubscription, s, [])) ∧
    (∀ txs : List Transaction,
      (∀ t ∈ txs, ¬(t.fund_id = fund_id ∧ t.transaction_type = TxType.SUBSCRIPTION ∧
        t.status = TxStatus.COMPLETED)) →
      find_last_subscription txs fund_id = none) ∧
    (∀ txs : List Transaction,
      (∀ t ∈ txs, t.fund_id = fund_id → t.transaction_type = TxType.SUBSCRIPTION →
        t.status = TxStatus.COMPLETED →
        ∃ c ∈ txs, c.fund_id = fund_id ∧ c.transaction_type = TxType.CANCELLATION ∧
          c.status = TxStatus.COMPLETED ∧ t.created_at < c.created_at) →
      find_last_subscription txs fund_id = none) := by
  refine ⟨fun saveOk hfind => cancel_fund_subscription_none hf hfind, ?_, ?_⟩
  · intro txs hno
    unfold find_last_subscription
    rw [List.find?_eq_none]
    intro t ht hcontra
    simp only [Bool.and_eq_true, beq_iff_eq] at hcontra
    exact hno t ht ⟨hcontra.1.1.1, hcontra.1.1.2, hcontra.1.2⟩
  · intro txs hall
    unfold find_last_subscription
    rw [List.find?_eq_none]
    intro t ht hcontra
    simp only [Bool.and_eq_true, beq_iff_eq, Bool.not_eq_true'] at hcontra
    obtain ⟨⟨⟨h1, h2⟩, h3⟩, h4⟩ := hcontra
    obtain ⟨c, hc, hcf, hct, hcs, hlt⟩ := hall t ht h1 h2 h3
    have hany : (txs.any fun x =>
        x.fund_id == fund_id && x.transaction_type == TxType.CANCELLATION &&
        x.status == TxStatus.COMPLETED && decide (t.created_at < x.created_at)) =
        true :=
      List.any_eq_true.mpr ⟨c, hc, by simp [hcf, hct, hcs, hlt]⟩
    rw [h4] at hany
    exact Bool.false_ne_true hany

/-- Witness for C6 at concrete inputs: on the fresh store (no history)
cancel fails leaving everything unchanged, and the scan misses both on an
empty window and on a window where the only subscription has a later
completed cancellation. -/
theorem cancel_requires_completed_subscription_witness :
    cancel_fund_subscription state0 "fund_a" true true =
      (CancelResult.noActiveSubscription, state0, []) ∧
    find_last_subscription [cancelTx1, subTx0] "fund_a" = none := by
  have h := cancel_requires_completed_subscription (s := state0)
    (rfl : fundGet state0 "fund_a" = some fundA)
  refine ⟨h.1 true rfl, h.2.2 _ ?_⟩
  intro t ht h1 h2 h3
  simp only [List.mem_cons, List.mem_singleton, List.not_mem_nil, or_false] at ht
  rcases ht with rfl | rfl
  · simp [cancelTx1] at h2
  · refine ⟨cancelTx1, by simp, rfl, rfl, rfl, ?_⟩
    simp [subTx0, cancelTx1]

/-- C7: every successful `FundService.cancel_fund_subscription` refunds
exactly the amount of the COMPLETED SUBSCRIPTION transaction the ledger
scan matched — the amount actually charged, independent of the fund
record — and the new balance is the old balance plus that refund. -/
theorem cancel_refunds_charged_amount {queryOk saveOk : Bool} {t : Transaction}
    (h : (cancel_fund_subscription s fund_id queryOk saveOk).1 =
      CancelResult.cancelled t) :
    ∃ sub, find_last_subscription (get_user_transactions s 50 queryOk) fund_id =
        some sub ∧
      sub.transaction_type = TxType.SUBSCRIPTION ∧
      sub.status = TxStatus.COMPLETED ∧
      t.amount = sub.amount ∧
      (cancel_fund_subscription s fund_id queryOk saveOk).2.1.balance =
        some ((get_or_create_balance s).1 + sub.amount) := by
  rcases hfg : fundGet s fund_id with _ | f
  · simp [cancel_fund_subscription, hfg] at h
  · rcases hfind : find_last_subscription (get_user_transactions s 50 queryOk)
      fund_id with _ | sub
    · simp [cancel_fund_subscription, hfg, hfind] at h
    · have hp := List.find?_some hfind
      simp only [Bool.and_eq_true, beq_iff_eq] at hp
      cases queryOk
      · exfalso
        simp [get_user_transactions, find_last_subscription] at hfind
      · have hfind2 : find_last_subscription (s.transactions.take 50) fund_id =
            some sub := by simpa [get_user_transactions] using hfind
        cases saveOk
        · exfalso
          rcases hB : s.balance with _ | b
          · have hf2 : fundGet { s with balance := some 500000 } fund_id =
              some f := hfg
            have hfind3 : find_last_subscription
                (({ s with balance := some 500000 } : State).transactions.take 50)
                fund_id = some sub := hfind2
            have hb2 : ({ s with balance := some 500000 } : State).balance =
              some 500000 := rfl
            rw [cancel_fund_subscription_lazy hB hfg hfind,
              cancel_fund_subscription_failure hf2 hfind3 hb2] at h
            simp at h
          · rw [cancel_fund_subscription_failure hfg hfind2 hB] at h
            simp at h
        · rcases hB : s.balance with _ | b
          · have hf2 : fundGet { s with balance := some 500000 } fund_id =
              some f := hfg
            have hfind3 : find_last_subscription
                (({ s with balance := some 500000 } : State).transactions.take 50)
                fund_id = some sub := hfind2
            have hb2 : ({ s with balance := some 500000 } : State).balance =
              some 500000 := rfl
            rw [cancel_fund_subscription_lazy hB hfg hfind] at h ⊢
            rw [cancel_fund_subscription_success hf2 hfind3 hb2] at h ⊢
            simp only [CancelResult.cancelled.injEq] at h
            subst h
            exact ⟨sub, rfl, hp.1.1.2, hp.1.2, rfl,
              by simp [cancelSuccessState, get_or_create_balance, hB]⟩
          · rw [cancel_fund_subscription_success hfg hfind2 hB] at h ⊢
            simp only [CancelResult.cancelled.injEq] at h
            subst h
            exact ⟨sub, rfl, hp.1.1.2, hp.1.2, rfl,
              by simp [cancelSuccessState, get_or_create_balance, hB]⟩

/-- Witness for C7: cancelling on the store left by a 125000 subscribe
refunds exactly 125000 — the matched transaction's amount — and credits it
onto the balance. -/
theorem cancel_refunds_charged_amount_witness :
    ∃ sub, find_last_subscription (get_user_transactions stateSub 50 true)
        "fund_a" = some sub ∧
      sub.transaction_type = TxType.SUBSCRIPTION ∧
      sub.status = TxStatus.COMPLETED ∧
      (txRecord stateSub "fund_a" TxType.CANCELLATION 125000
        TxStatus.COMPLETED).amount = sub.amount ∧
      (cancel_fund_subscription stateSub "fund_a" true true).2.1.balance =
        some ((get_or_create_balance stateSub).1 + sub.amount) := by
  refine cancel_refunds_charged_amount ?_
  rw [cancel_fund_subscription_success (s := stateSub) (b := 375000)
    (rfl : fundGet stateSub "fund_a" = some fundA)
    (rfl : find_last_subscription (stateSub.transactions.take 50) "fund_a" =
      some subTx0)
    (rfl : stateSub.balance = some 375000)]
  rfl

/-- C9 counterexample (to the claim as stated): one cent is a
currency-minor-unit amount, yet it is not exactly representable in binary
floating point, so the `float(new_balance)` conversion inside
`UserBalance.update_balance` does not store it exactly — balance values do
pass through binary floating point. -/
theorem decimal_storage_counterexample :
    minorUnitAmount (1 / 100) ∧ ¬ update_balance_stores_exactly (1 / 100) :=
  ⟨⟨1, by norm_num⟩, not_doubleRepresentable_hundredth⟩

/-- C9 amended: the balance arithmetic itself (Python `Decimal` additions,
subtractions, comparisons) is exact — debiting 125000.50 from 500000.75
through `subscribe_to_fund` yields exactly 375000.25 — and each of these
three values is also *stored* exactly because each is binary-representable;
but storage does pass through binary floating point, and a non-dyadic
minor-unit amount such as 0.01 is not stored exactly. -/
theorem decimal_arithmetic_exactness :
    (subscribe_to_fund stateDec "fund_dec" true).2.1.balance = some 375000.25 ∧
    ((500000.75 : ℚ) - 125000.50 = 375000.25) ∧
    update_balance_stores_exactly (500000.75 : ℚ) ∧
    update_balance_stores_exactly (125000.50 : ℚ) ∧
    update_balance_stores_exactly (375000.25 : ℚ) ∧
    ¬ update_balance_stores_exactly (1 / 100) := by
  refine ⟨?_, by norm_num, ⟨2000003, -2, by norm_num, ?_⟩,
    ⟨250001, -1, by norm_num, ?_⟩, ⟨1500001, -2, by norm_num, ?_⟩,
    not_doubleRepresentable_hundredth⟩
  · rw [subscribe_to_fund_success (s := stateDec) (b := (500000.75 : ℚ))
      (rfl : fundGet stateDec "fund_dec" = some fundDec) rfl rfl
      (by norm_num [fundDec])]
    show some ((500000.75 : ℚ) - fundDec.minimum_amount) = some 375000.25
    norm_num [fundDec]
  · rw [zpow_neg]
    norm_num
  · rw [zpow_neg]
    norm_num
  · rw [zpow_neg]
    norm_num

/-- C10: a storage failure inside `Transaction.get_user_transactions` is
swallowed and the empty list returned, so when the ledger read fails
`FundService.cancel_fund_subscription` reports the no-active-subscription
validation failure (store untouched) instead of surfacing a storage
error. -/
theorem query_failure_returns_empty :
    (∀ (s : State) (limit : ℕ), get_user_transactions s limit false = []) ∧
    (∀ (s : State) (fund_id : String) (f : Fund) (saveOk : Bool),
      fundGet s fund_id = some f →
      cancel_fund_subscription s fund_id false saveOk =
        (CancelResult.noActiveSubscription, s, [])) := by
  refine ⟨fun s limit => rfl, fun s fund_id f saveOk hf => ?_⟩
  exact cancel_fund_subscription_none hf rfl

/-- Witness for C10: with the query failing on the store that does have an
eligible subscription, cancel still reports no-active-subscription and
changes nothing. -/
theorem query_failure_returns_empty_witness :
    cancel_fund_subscription stateSub "fund_a" false true =
      (CancelResult.noActiveSubscription, stateSub, []) :=
  query_failure_returns_empty.2 stateSub "fund_a" fundA true rfl

end Claims

end BackendAmaris
